import Mathlib

/-!
Shallow embedding of the storage-helper core (AI orchestration service):
the category/location assignment engine (`app/modules/recommendation.py`,
`app/core/category_config.py`), the local document store
(`app/storage/local_storage.py`), the similarity search engine
(`app/modules/search_engine.py`) and the ingestion pipeline
(`app/pipelines/ingestion.py`).

Modelling conventions:
- Python floats are modelled as rationals (`ℚ`) where only stored and
  compared structurally, and as reals (`ℝ`) where arithmetic (cosine
  similarity) happens.
- Python dicts keyed by id are association lists; writing a fresh file is
  a prepend (lookup returns the newest entry, matching file overwrite),
  while the insertion-ordered index dict appends (Python dicts iterate in
  insertion order).
- `uuid.uuid4()` freshness is modelled by a counter in the storage state.
- File input/output is modelled as always succeeding; the claims under
  study are about logical content, not I/O faults.
-/

/- ------------------------------------------------------------------ -/
/- Python-semantics helpers                                            -/
/- ------------------------------------------------------------------ -/

/-- Characters of `needle` appear at the start of `hay` (helper for the
Python substring test). -/
def leadsChars : List Char → List Char → Bool
  | [], _ => true
  | _ :: _, [] => false
  | c :: cs, d :: ds => c == d && leadsChars cs ds

/-- Python substring test `needle in hay`, on character lists. -/
def occursInChars (needle : List Char) : List Char → Bool
  | [] => needle.isEmpty
  | d :: ds => leadsChars needle (d :: ds) || occursInChars needle ds

/-- Python substring test `needle in hay` on strings. -/
def strContains (hay needle : String) : Bool :=
  occursInChars needle.data hay.data

/-- Python `max(xs, key=f, default=None)`: the first element attaining the
maximal key (Python `max` keeps the earliest maximum). -/
def pyMaxBy {α : Type} (f : α → Nat) : List α → Option α
  | [] => none
  | x :: xs => some (xs.foldl (fun acc z => if f z > f acc then z else acc) x)

/-- Python truthiness of an optional integer (`if x:`): `None` and `0` are
falsy. -/
def truthyOptInt : Option Int → Bool
  | none => false
  | some v => v != 0

/-- Python `a or b` on an optional string with a string fallback: an absent
or empty string falls through to the default. -/
def pyOrString (a : Option String) (b : String) : String :=
  match a with
  | none => b
  | some s => if s = "" then b else s

/-- Python `str.upper()`, character by character.  (Defined structurally on
the character list so that concrete inputs evaluate in the kernel;
`String.toUpper` is definitionally opaque.) -/
def pyUpper (s : String) : String :=
  String.mk (s.data.map Char.toUpper)

/-- Python `str.lower()`, character by character. -/
def pyLower (s : String) : String :=
  String.mk (s.data.map Char.toLower)

/-- Python `str.strip()`: drop leading and trailing whitespace. -/
def pyStrip (s : String) : String :=
  String.mk (((s.data.dropWhile Char.isWhitespace).reverse.dropWhile
    Char.isWhitespace).reverse)

/-- Remove spaces, as Python `str.replace(" ", "")`. -/
def removeSpaces (s : String) : String :=
  String.mk (s.data.filter (fun c => c ≠ ' '))

/-- Stable insertion of `x` into a list kept in non-increasing key order:
`x` goes after every element with a key not smaller than its own.  Used to
model Python's stable `list.sort(key=..., reverse=True)`: a stable
non-increasing sort of a list is unique, so this structural insertion sort
agrees with the source's Timsort extensionally. -/
def insertDescBy {α β : Type} [LinearOrder β] (key : α → β) (x : α) :
    List α → List α
  | [] => [x]
  | y :: ys => if key x < key y then y :: insertDescBy key x ys else x :: y :: ys

/-- Stable non-increasing sort by key (Python `sort(key=..., reverse=True)`). -/
def sortDescBy {α β : Type} [LinearOrder β] (key : α → β) (l : List α) : List α :=
  l.foldr (insertDescBy key) []

/-- First `n` characters, as Python slicing `s[:n]`. -/
def takeChars (n : Nat) (s : String) : String :=
  String.mk (s.data.take n)

/- ------------------------------------------------------------------ -/
/- app/core/category_config.py                                          -/
/- ------------------------------------------------------------------ -/

/-- `ALLOWED_CATEGORY_TYPES` from `app/core/category_config.py`, in source
list order. -/
def ALLOWED_CATEGORY_TYPES : List String :=
  ["TAX", "BANK", "REC", "UTIL", "INS", "VISA", "MED", "EDU", "LEG", "WORK", "MISC"]

/-- `CATEGORY_LOCATION_KEYWORDS` from `app/core/category_config.py`. -/
def CATEGORY_LOCATION_KEYWORDS : List (String × List String) :=
  [("TAX", ["tax", "financial", "desk", "office", "filing", "archive"]),
   ("VISA", ["immigration", "passport", "visa", "safe", "important", "legal"]),
   ("MED", ["medical", "medicine", "health", "prescription", "bathroom", "kitchen"]),
   ("INS", ["insurance", "medical", "health", "kitchen", "cabinet"]),
   ("EDU", ["education", "diploma", "transcript", "certificate", "school", "archive"]),
   ("LEG", ["legal", "contract", "agreement", "law", "safe", "important"]),
   ("REC", ["receipt", "purchase", "expense", "transaction", "financial"]),
   ("BANK", ["bank", "banking", "account", "statement", "financial", "safe"]),
   ("UTIL", ["utility", "bill", "electricity", "water", "gas", "internet"]),
   ("WORK", ["work", "employment", "contract", "job", "office", "filing"]),
   ("MISC", ["unknown", "misc", "other", "unreadable", "uncategorized", "illegible"])]

/-- `COMMON_CATEGORY_SUGGESTIONS` from `app/core/category_config.py`:
code ↦ (name, description).  Note the table has no entry for TAX, VISA,
MED or INS. -/
def COMMON_CATEGORY_SUGGESTIONS : List (String × String × String) :=
  [("LEG", "Legal Documents",
    "Legal documents including contracts, agreements, and legal papers"),
   ("REC", "Receipts",
    "Various receipts for purchases, expenses, and transactions"),
   ("BANK", "Banking Documents",
    "Bank statements, account information, and financial records"),
   ("UTIL", "Utility Bills",
    "Utility bills including electricity, water, gas, and internet bills"),
   ("WORK", "Work Documents",
    "Work-related documents including employment contracts and work records"),
   ("EDU", "Education Documents",
    "Education-related documents including diplomas, transcripts, and certificates"),
   ("MISC", "Miscellaneous Documents",
    "Documents that cannot be classified, unreadable scans, or uncategorized paperwork")]

/-- `get_category_keywords`: keywords for a code, empty list when absent. -/
def get_category_keywords (category_code : String) : List String :=
  ((CATEGORY_LOCATION_KEYWORDS.find? (fun p => p.1 == pyUpper category_code)).map
    (fun p => p.2)).getD []

/-- `is_allowed_category_type`: membership of the upper-cased code in the
allowed-type registry. -/
def is_allowed_category_type (category_code : String) : Bool :=
  ALLOWED_CATEGORY_TYPES.contains (pyUpper category_code)

/-- `get_category_suggestion`: suggested (name, description) for a code;
`none` models Python's empty dict. -/
def get_category_suggestion (category_code : String) : Option (String × String) :=
  (COMMON_CATEGORY_SUGGESTIONS.find? (fun p => p.1 == pyUpper category_code)).map
    (fun p => p.2)

/- ------------------------------------------------------------------ -/
/- app/modules/recommendation.py : categories                          -/
/- ------------------------------------------------------------------ -/

/-- A row of `document_categories.json` (timestamps omitted: no claim
observes them). -/
structure DocumentCategory where
  id : Int
  code : String
  name : String
  description : String
deriving Repr, DecidableEq

/-- Case-insensitive code match used by `ensure_category_exists`. -/
def matchesCode (code : String) (cat : DocumentCategory) : Bool :=
  pyUpper cat.code == pyUpper code

/-- The first canonical allowed code not used by any existing category.
The source iterates a Python set (`allowed_codes_set`) whose order is
unspecified; it is modelled here in registry-list order.  No claim settled
below depends on which unused canonical code is produced. -/
def firstAvailableCanonical (categories : List DocumentCategory) : Option String :=
  let existing_codes := categories.map (fun cat => pyUpper cat.code)
  (ALLOWED_CATEGORY_TYPES.map (fun c => pyUpper c)).find?
    (fun c => ¬ existing_codes.contains c)

/-- Fallback code derived from the name (`name.upper().replace(" ", "")[:3]`
plus a counter until fresh).  The `none` branch of the inner search is
unreachable: among `existing_codes.length + 1` distinct candidates one is
always fresh. -/
def nameDerivedCode (name : String) (existing_codes : List String) : String :=
  let base := takeChars 3 (removeSpaces (pyUpper name))
  if ¬ existing_codes.contains base then base
  else
    match (List.range (existing_codes.length + 1)).find?
        (fun n => ¬ existing_codes.contains (base ++ toString (n + 1))) with
    | some n => base ++ toString (n + 1)
    | none => base

/-- Code selection of `RecommendationGenerator.add_new_category`: keep the
supplied code when truthy and allowed, otherwise regenerate. -/
def pickCategoryCode (categories : List DocumentCategory) (name : String)
    (code : Option String) : String :=
  if (code.getD "") = "" ∨ ¬ is_allowed_category_type (code.getD "") then
    match firstAvailableCanonical categories with
    | some available_code => available_code
    | none => nameDerivedCode name (categories.map (fun cat => pyUpper cat.code))
  else code.getD ""

/-- `RecommendationGenerator.add_new_category`: build the new category with
the next id (`max(ids, default=0) + 1`) and append it to the catalog. -/
def add_new_category (categories : List DocumentCategory) (name description : String)
    (code : Option String) : DocumentCategory × List DocumentCategory :=
  let finalCode := pickCategoryCode categories name code
  let max_id : Int :=
    match categories with
    | [] => 0
    | c :: rest => rest.foldl (fun acc cat => max acc cat.id) c.id
  let new_category : DocumentCategory :=
    { id := max_id + 1, code := finalCode, name := name, description := description }
  (new_category, categories ++ [new_category])

/-- `RecommendationGenerator.ensure_category_exists`: return the first
category whose code matches case-insensitively, else create one. -/
def ensure_category_exists (categories : List DocumentCategory)
    (code name description : String) : DocumentCategory × List DocumentCategory :=
  match categories.find? (matchesCode code) with
  | some category => (category, categories)
  | none => add_new_category categories name description (some code)

/-- The classification proposal fields read by the NEW_CATEGORY branch of
`RecommendationGenerator.generate` (absent keys are `""`, as
`parsed_json.get(..., "")`). -/
structure CategoryProposal where
  category_code : String
  new_category_name : String
  new_category_code : String
  new_category_description : String
deriving Repr, DecidableEq

/-- The NEW_CATEGORY branch of `RecommendationGenerator.generate`
(lines 531-555): validate or substitute the canonical code, synthesize
name/description when omitted, then create idempotently by code. -/
def resolve_new_category (categories : List DocumentCategory) (p : CategoryProposal) :
    DocumentCategory × List DocumentCategory :=
  let new_code0 := pyStrip (pyUpper p.new_category_code)
  let new_code :=
    if new_code0 = "" ∨ ¬ is_allowed_category_type new_code0 then
      (ALLOWED_CATEGORY_TYPES.head?).getD "TAX"
    else new_code0
  let name_description :=
    if p.new_category_name = "" ∨ p.new_category_description = "" then
      match get_category_suggestion new_code with
      | some s => s
      | none => (new_code, "Category for documents classified as " ++ new_code)
    else (p.new_category_name, p.new_category_description)
  ensure_category_exists categories new_code name_description.1 name_description.2

/-- The substitution rule as claim C3 words it: the first canonical code,
in registry order, not yet used by any existing category. -/
def spec_first_unused_canonical (categories : List DocumentCategory) : Option String :=
  ALLOWED_CATEGORY_TYPES.find?
    (fun c => ¬ (categories.map (fun cat => pyUpper cat.code)).contains (pyUpper c))

/- ------------------------------------------------------------------ -/
/- app/modules/recommendation.py : locations                           -/
/- ------------------------------------------------------------------ -/

/-- A storage location from the external catalog (photo omitted: never
read by the engine). -/
structure StorageLocation where
  id : Int
  name : String
  description : String
deriving Repr, DecidableEq

/-- A persisted category-to-location mapping (timestamps and
document_type_id omitted: never read). -/
structure LocationMapping where
  id : Int
  location_id : Option Int
  category_id : Option Int
  priority : Int
  is_allowed : Bool
deriving Repr, DecidableEq

/-- `score_location_for_category`: count the category keywords occurring
(case-insensitively) in the location's name-description text. -/
def score_location_for_category (category_code : String)
    (location : StorageLocation) : Nat :=
  let keywords := get_category_keywords category_code
  if keywords = [] then 0
  else
    let text := pyLower (location.name ++ " " ++ location.description)
    (keywords.filter (fun keyword => strContains text (pyLower keyword))).length

/-- `get_used_location_ids`: location ids already assigned in mappings.
The source returns a Python set; only membership is ever consulted, so a
list suffices. -/
def get_used_location_ids (mappings : List LocationMapping) : List Int :=
  mappings.filterMap (fun m => m.location_id)

/-- `get_preferred_location_for_category`: highest-priority allowed mapping
for the category (stable descending sort, first element). -/
def get_preferred_location_for_category (mappings : List LocationMapping)
    (category_id : Option Int) : Option Int :=
  match category_id with
  | none => none
  | some cid =>
    if mappings = [] then none
    else
      let category_mappings :=
        mappings.filter (fun m => m.category_id == some cid && m.is_allowed)
      if category_mappings = [] then none
      else
        let sorted := sortDescBy (fun m => m.priority) category_mappings
        (sorted.head?).bind (fun m => m.location_id)

/-- `find_best_unused_location`: best-scoring unused location when its
score is positive, otherwise the first unused slot; `none` only when every
location is used. -/
def find_best_unused_location (category_code : String)
    (locations : List StorageLocation) (used_location_ids : List Int) : Option Int :=
  let unused_locations :=
    locations.filter (fun loc => ¬ used_location_ids.contains loc.id)
  if unused_locations = [] then none
  else
    match pyMaxBy (score_location_for_category category_code) unused_locations with
    | some best_location =>
      if score_location_for_category category_code best_location > 0 then
        some best_location.id
      else (unused_locations.head?).map (fun loc => loc.id)
    | none => none

/-- `find_best_location_any`: best-scoring location over the whole catalog
when positive, otherwise the first location. -/
def find_best_location_any (category_code : String)
    (locations : List StorageLocation) : Option Int :=
  if locations = [] then none
  else
    match pyMaxBy (score_location_for_category category_code) locations with
    | some best_location =>
      if score_location_for_category category_code best_location > 0 then
        some best_location.id
      else (locations.head?).map (fun loc => loc.id)
    | none => none

/-- The location-assignment block of `RecommendationGenerator.generate`
(lines 583-604): preferred mapping first, then unused-location scoring,
then whole-catalog scoring, with a final validity check falling back to
the first location. -/
def assign_location_id (category_code : String) (category_id : Option Int)
    (locations : List StorageLocation) (mappings : List LocationMapping) : Option Int :=
  if locations = [] then none
  else
    let valid_location_ids := locations.map (fun loc => loc.id)
    let used_location_ids := get_used_location_ids mappings
    let preferred_location_id := get_preferred_location_for_category mappings category_id
    let assigned0 :=
      if truthyOptInt preferred_location_id = true ∧
          (preferred_location_id.getD 0) ∈ valid_location_ids then
        preferred_location_id
      else
        let a := find_best_unused_location category_code locations used_location_ids
        if truthyOptInt a = true then a
        else find_best_location_any category_code locations
    if truthyOptInt assigned0 = true ∧ (assigned0.getD 0) ∈ valid_location_ids then
      assigned0
    else (locations.head?).map (fun loc => loc.id)

/-- The pick described by claim C2's spec sentences (steps 2-4, after the
preferred-mapping step does not apply): highest-scoring unused location
with positive score, else highest-scoring location overall with positive
score, else the first location in catalog order. -/
def spec_claim_pick (category_code : String) (locations : List StorageLocation)
    (mappings : List LocationMapping) : Option Int :=
  let used := get_used_location_ids mappings
  let unused := locations.filter (fun loc => ¬ used.contains loc.id)
  let score := score_location_for_category category_code
  let fallbackAny :=
    match pyMaxBy score locations with
    | some a =>
      if score a > 0 then some a.id else (locations.head?).map (fun loc => loc.id)
    | none => (locations.head?).map (fun loc => loc.id)
  match pyMaxBy score unused with
  | some b => if score b > 0 then some b.id else fallbackAny
  | none => fallbackAny

/- ------------------------------------------------------------------ -/
/- app/storage/local_storage.py                                        -/
/- ------------------------------------------------------------------ -/

/-- The two fields of a stored recommendation payload that the storage
layer itself reads (`suggested_location`, `suggested_tags`); the rest of
the payload is opaque to the store. -/
structure RecommendationData where
  suggested_location : Option String
  suggested_tags : List String
deriving Repr, DecidableEq

/-- Input payload of `save_document` (`document_data`): absent dict keys
are `none`; `embedding` defaults to `[]` as in the source. -/
structure DocumentData where
  owner_id : Option Int
  source : Option String
  image_path : Option String
  extracted_text : Option String
  ocr_confidence : Option ℚ
  embedding : List ℚ
  embedding_dimension : Option Int
  recommendation_data : Option RecommendationData
  recommendation_status : Option String
  processing_steps : List String
  status : Option String
deriving Repr, DecidableEq

/-- The `metadata` sub-dict of a stored document record. -/
structure DocMetadata where
  processing_steps : List String
  status : String
deriving Repr, DecidableEq

/-- A stored document record (`document_record` in `save_document`). -/
structure DocumentRecord where
  id : Nat
  created_at : Nat
  owner_id : Option Int
  source : Option String
  image_path : Option String
  extracted_text : String
  ocr_confidence : Option ℚ
  has_embedding : Bool
  embedding_dimension : Int
  recommendation_data : Option RecommendationData
  recommendation_status : Option String
  metadata : DocMetadata
deriving Repr, DecidableEq

/-- A stored embedding record (`embedding_record` in `_save_embedding`). -/
structure EmbeddingRecord where
  document_id : Nat
  embedding : List ℚ
  dimension : Int
  created_at : Nat
deriving Repr, DecidableEq

/-- An index entry (`index_entry` in `save_document`).  The
recommendation-derived keys exist only when recommendation data is
present; key-absent and value-`None` are collapsed into one `Option`
(nothing reads the difference). -/
structure IndexEntry where
  id : Nat
  owner_id : Option Int
  created_at : Nat
  has_embedding : Bool
  text_preview : String
  suggested_location : Option String
  suggested_tags : Option (List String)
deriving Repr, DecidableEq

/-- The `index.json` content: per-owner lists keyed by `str(owner_id)`
plus the global `documents` map.  Both preserve insertion order, as
Python dicts do. -/
structure StorageIndex where
  owners : List (String × List IndexEntry)
  documents : List (Nat × IndexEntry)
deriving Repr, DecidableEq

/-- The on-disk state of a `LocalStorage` instance.  `nextId` models
`uuid.uuid4()` freshness; `clock` models `datetime.now()`. -/
structure LocalStorage where
  documents : List (Nat × DocumentRecord)
  embeddings : List (Nat × EmbeddingRecord)
  images : List (Nat × String)
  index : StorageIndex
  nextId : Nat
  clock : Nat
deriving Repr, DecidableEq

/-- The empty storage directory (fresh `LocalStorage`). -/
def LocalStorage.empty : LocalStorage :=
  { documents := [], embeddings := [], images := [], index := ⟨[], []⟩,
    nextId := 0, clock := 0 }

/-- Python `str(owner_id)`: `None` prints as "None". -/
def ownerKey : Option Int → String
  | none => "None"
  | some n => toString n

/-- `LocalStorage._save_embedding`: refuses an empty vector or a zero
declared dimension, else writes the embedding record under the document
id. -/
def _save_embedding (s : LocalStorage) (doc_id : Nat) (embedding : List ℚ)
    (embedding_dimension : Int) : Bool × LocalStorage :=
  if embedding = [] ∨ embedding_dimension = 0 then (false, s)
  else
    (true, { s with embeddings :=
      (doc_id, ⟨doc_id, embedding, embedding_dimension, s.clock⟩) :: s.embeddings })

/-- `LocalStorage.save_image`, modelled as always succeeding: the
destination path is derived from the document id (extension handling and
URL download are file-system details outside the claims). -/
def save_image (s : LocalStorage) (doc_id : Nat) : Option String × LocalStorage :=
  let dest := "images/" ++ toString doc_id
  (some dest, { s with images := (doc_id, dest) :: s.images })

/-- Append an index entry to the owner's list, creating the owner key on
first sight (`if owner_id not in index: index[owner_id] = []`). -/
def appendOwnerEntry (owners : List (String × List IndexEntry)) (k : String)
    (e : IndexEntry) : List (String × List IndexEntry) :=
  match owners.find? (fun p => p.1 == k) with
  | none => owners ++ [(k, [e])]
  | some _ => owners.map (fun p => if p.1 == k then (p.1, p.2 ++ [e]) else p)

/-- `LocalStorage.save_document`: fresh id, optional image save, document
record write, separate embedding write (guarded), then both index
structures. -/
def save_document (s : LocalStorage) (dd : DocumentData) : Nat × LocalStorage :=
  let doc_id := s.nextId
  let embedding := dd.embedding
  let embedding_dimension : Int :=
    dd.embedding_dimension.getD (if embedding = [] then 0 else (embedding.length : Int))
  let imageStep : Option String × LocalStorage :=
    match dd.image_path with
    | some p => if p = "" then (none, s) else save_image s doc_id
    | none => (none, s)
  let saved_image_path := imageStep.1
  let s1 := imageStep.2
  let document_record : DocumentRecord :=
    { id := doc_id
      created_at := s.clock
      owner_id := dd.owner_id
      source := dd.source
      image_path := saved_image_path
      extracted_text := dd.extracted_text.getD ""
      ocr_confidence := dd.ocr_confidence
      has_embedding := decide (0 < embedding.length)
      embedding_dimension := embedding_dimension
      recommendation_data := dd.recommendation_data
      recommendation_status := dd.recommendation_status
      metadata := ⟨dd.processing_steps, dd.status.getD "unknown"⟩ }
  let s2 := { s1 with documents := (doc_id, document_record) :: s1.documents }
  let s3 := if embedding = [] then s2
    else (_save_embedding s2 doc_id embedding embedding_dimension).2
  let index_entry : IndexEntry :=
    { id := doc_id
      owner_id := document_record.owner_id
      created_at := document_record.created_at
      has_embedding := document_record.has_embedding
      text_preview :=
        if document_record.extracted_text = "" then ""
        else takeChars 200 document_record.extracted_text
      suggested_location := dd.recommendation_data.bind (fun r => r.suggested_location)
      suggested_tags := dd.recommendation_data.map (fun r => r.suggested_tags) }
  let okey := ownerKey document_record.owner_id
  let index' : StorageIndex :=
    { owners := appendOwnerEntry s3.index.owners okey index_entry
      documents := s3.index.documents ++ [(doc_id, index_entry)] }
  (doc_id, { s3 with index := index', nextId := s.nextId + 1, clock := s.clock + 1 })

/-- `LocalStorage.get_document`: the record plus, when requested, the
attached embedding (empty list when no embedding record exists). -/
def get_document (s : LocalStorage) (doc_id : Nat) (include_embedding : Bool) :
    Option (DocumentRecord × Option (List ℚ)) :=
  match s.documents.lookup doc_id with
  | none => none
  | some document =>
    if include_embedding then
      some (document, some (((s.embeddings.lookup doc_id).map
        (fun r => r.embedding)).getD []))
    else some (document, none)

/-- `LocalStorage.get_embedding`. -/
def get_embedding (s : LocalStorage) (doc_id : Nat) : Option (List ℚ) :=
  (s.embeddings.lookup doc_id).map (fun r => r.embedding)

/-- One element of `get_all_embeddings`' result. -/
structure EmbeddedDoc where
  id : Nat
  text : String
  embedding : List ℚ
  metadata : DocMetadata
  recommendation : Option RecommendationData
deriving Repr, DecidableEq

/-- `LocalStorage.get_all_embeddings`: ids of embedding-flagged index
entries (per-owner list or global map), then load document and embedding,
skipping ids whose document or embedding is missing or empty. -/
def get_all_embeddings (s : LocalStorage) (owner_id : Option Int) : List EmbeddedDoc :=
  let doc_ids : List Nat :=
    match owner_id with
    | some o =>
      (((s.index.owners.find? (fun p => p.1 == ownerKey (some o))).map
        (fun p => p.2)).getD []).filterMap
        (fun e => if e.has_embedding then some e.id else none)
    | none =>
      s.index.documents.filterMap
        (fun p => if p.2.has_embedding then some p.1 else none)
  doc_ids.filterMap (fun doc_id =>
    match get_document s doc_id false with
    | none => none
    | some (doc, _) =>
      match get_embedding s doc_id with
      | none => none
      | some emb =>
        if emb = [] then none
        else some ⟨doc.id, doc.extracted_text, emb, doc.metadata,
          doc.recommendation_data⟩)

/-- `LocalStorage.delete_document`: absent document body returns `false`
and changes nothing; otherwise remove the body, the embedding, the image
and both index entries. -/
def delete_document (s : LocalStorage) (doc_id : Nat) : Bool × LocalStorage :=
  match s.documents.lookup doc_id with
  | none => (false, s)
  | some _ =>
    let documents' := s.documents.filter (fun p => p.1 != doc_id)
    let embeddings' := s.embeddings.filter (fun p => p.1 != doc_id)
    let images' := s.images.filter (fun p => p.1 != doc_id)
    let index' : StorageIndex :=
      match s.index.documents.lookup doc_id with
      | none => s.index
      | some doc_entry =>
        let okey := ownerKey doc_entry.owner_id
        { owners := s.index.owners.map (fun p =>
            if p.1 == okey then (p.1, p.2.filter (fun d => d.id != doc_id)) else p)
          documents := s.index.documents.filter (fun p => p.1 != doc_id) }
    (true,
      { s with
          documents := documents',
          embeddings := embeddings',
          images := images',
          index := index' })

/- ------------------------------------------------------------------ -/
/- app/modules/search_engine.py                                        -/
/- ------------------------------------------------------------------ -/

/-- Pointwise product sum of two rational vectors (`np.dot`). -/
def dotQ (a b : List ℚ) : ℚ :=
  (List.zipWith (fun x y => x * y) a b).sum

/-- Euclidean norm of a stored vector (`np.linalg.norm`), as a real. -/
noncomputable def vecNorm (v : List ℚ) : ℝ :=
  Real.sqrt ((dotQ v v : ℚ) : ℝ)

/-- `cosine_similarity`: 0 for an empty vector, a length mismatch or a
zero norm, else the cosine of the two vectors.  Python float arithmetic is
modelled exactly over ℝ. -/
noncomputable def cosine_similarity (vec1 vec2 : List ℚ) : ℝ :=
  if vec1 = [] ∨ vec2 = [] then 0
  else if vec1.length ≠ vec2.length then 0
  else if vecNorm vec1 = 0 ∨ vecNorm vec2 = 0 then 0
  else ((dotQ vec1 vec2 : ℚ) : ℝ) / (vecNorm vec1 * vecNorm vec2)

/-- One search hit (`{"document_id":..., "score":..., "metadata":...}`). -/
structure SearchResult where
  document_id : Nat
  score : ℝ
  metadata : DocMetadata

/-- `SearchEngine.search`: score all embedding-bearing documents, keep
scores at or above `min_score`, sort by score non-increasingly (stable)
and truncate to `top_k`. -/
noncomputable def search (s : LocalStorage) (query_embedding : List ℚ)
    (owner_id : Option Int) (top_k : Nat) (min_score : ℝ) : List SearchResult :=
  if query_embedding = [] then []
  else
    let documents := get_all_embeddings s owner_id
    if documents = [] then []
    else
      let scored_results := documents.filterMap (fun doc =>
        if doc.embedding = [] then none
        else
          let similarity := cosine_similarity query_embedding doc.embedding
          if min_score ≤ similarity then
            some ⟨doc.id, similarity, doc.metadata⟩
          else none)
      (sortDescBy (fun r => r.score) scored_results).take top_k

/- ------------------------------------------------------------------ -/
/- app/pipelines/ingestion.py                                          -/
/- ------------------------------------------------------------------ -/

/-- Result of the OCR capability (`OCRResult`; page info omitted: the
pipeline reads only text and confidence). -/
structure OCRResult where
  text : String
  confidence : Option ℚ
deriving Repr, DecidableEq

/-- Outcome of one awaited external call: a value, or a raised
exception with its message. -/
inductive CapResult (α : Type) where
  | ok : α → CapResult α
  | raised : String → CapResult α
deriving Repr, DecidableEq

/-- The field of the cleaner's result dict that the pipeline reads
(`cleaning_info.get("cleaned_text", ...)`); the statistics fields are
never consulted. -/
structure CleaningInfo where
  cleaned_text : Option String
deriving Repr, DecidableEq

/-- Return value of `generate_recommendation`: a status tag plus either a
recommendation payload or an error message. -/
structure RecommendationOutcome where
  status : String
  recommendation : Option RecommendationData
  error : Option String
deriving Repr, DecidableEq

/-- The external capabilities one ingestion run awaits, each exactly
once. -/
structure IngestionCaps where
  ocr : CapResult (Option OCRResult)
  cleaner : CapResult CleaningInfo
  recommender : CapResult RecommendationOutcome
  embedder : CapResult (List ℚ)
  remote : CapResult Nat
deriving Repr, DecidableEq

/-- `PipelineState` from `app/pipelines/ingestion.py`. -/
structure PipelineState where
  image_url : String
  owner_id : Int
  document_id : Option Nat
  ocr_result : Option OCRResult
  cleaned_text : Option String
  cleaning_info : Option CleaningInfo
  recommendation_result : Option RecommendationOutcome
  embedding : Option (List ℚ)
  embedding_status : String
  processing_steps : List String
  status : String
  error : Option String
deriving Repr, DecidableEq

/-- The pipeline state as freshly initialized by `IngestionPipeline.run`. -/
def initState (image_url : String) (owner_id : Int) (document_id : Option Nat) :
    PipelineState :=
  { image_url := image_url
    owner_id := owner_id
    document_id := document_id
    ocr_result := none
    cleaned_text := none
    cleaning_info := none
    recommendation_result := none
    embedding := none
    embedding_status := "pending"
    processing_steps := []
    status := "initialized"
    error := none }

/-- `PipelineState.to_output_dict`.  Keys that the source sets to a `None`
value and keys it leaves absent are collapsed into one `Option` (every
reader uses `.get`, which cannot tell them apart). -/
structure OutputDict where
  status : String
  owner_id : Int
  source : String
  document_id : Option Nat
  processing_steps : List String
  extracted_text : Option String
  ocr_confidence : Option ℚ
  cleaning_info : Option CleaningInfo
  recommendation_status : Option String
  recommendation_data : Option RecommendationData
  recommendation_error : Option String
  embedding : Option (List ℚ)
  embedding_dimension : Option Int
  embedding_status : Option String
  error : Option String
deriving Repr, DecidableEq

/-- Build the output dictionary from the pipeline state, mirroring the
guards of `to_output_dict` (`if self.ocr_result`, `if self.embedding`
with Python truthiness, …). -/
def to_output_dict (st : PipelineState) : OutputDict :=
  { status := st.status
    owner_id := st.owner_id
    source := st.image_url
    document_id := st.document_id
    processing_steps := st.processing_steps
    extracted_text :=
      match st.ocr_result with
      | some r => some (pyOrString st.cleaned_text r.text)
      | none => none
    ocr_confidence := st.ocr_result.bind (fun r => r.confidence)
    cleaning_info := st.cleaning_info
    recommendation_status := st.recommendation_result.map (fun o => o.status)
    recommendation_data := st.recommendation_result.bind (fun o =>
      if o.status = "llm_success" then o.recommendation else none)
    recommendation_error := st.recommendation_result.bind (fun o =>
      if o.status = "llm_success" then none else o.error)
    embedding :=
      match st.embedding with
      | some e => if e = [] then none else some e
      | none => none
    embedding_dimension :=
      match st.embedding with
      | some e => if e = [] then none else some (e.length : Int)
      | none => none
    embedding_status :=
      match st.embedding with
      | some e => if e = [] then none else some st.embedding_status
      | none => none
    error := st.error }

/-- The document payload handed to the store by `step_persist`
(`document_data = state.to_output_dict()` plus `image_path`). -/
def outputToDocumentData (o : OutputDict) (image_path : Option String) : DocumentData :=
  { owner_id := some o.owner_id
    source := some o.source
    image_path := image_path
    extracted_text := o.extracted_text
    ocr_confidence := o.ocr_confidence
    embedding := (o.embedding).getD []
    embedding_dimension := o.embedding_dimension
    recommendation_data := o.recommendation_data
    recommendation_status := o.recommendation_status
    processing_steps := o.processing_steps
    status := some o.status }

/-- `IngestionPipeline.step_ocr`. -/
def step_ocr (cap : CapResult (Option OCRResult)) (st : PipelineState) :
    Bool × PipelineState :=
  match cap with
  | .raised e =>
    (false, { st with status := "failed", error := some ("OCR step failed: " ++ e) })
  | .ok res =>
    let st := { st with ocr_result := res }
    match res with
    | none =>
      (false,
        { st with
          status := "failed",
          error := some "OCR Extraction Failed or returned empty text." })
    | some r =>
      if r.text = "" then
        (false,
          { st with
            status := "failed",
            error := some "OCR Extraction Failed or returned empty text." })
      else
        (true,
          { st with
            processing_steps := st.processing_steps ++ ["OCR"],
            status := "ocr_completed" })

/-- `IngestionPipeline.step_cleaning`: a raising cleaner is recovered by
falling back to the raw OCR text and the pipeline continues. -/
def step_cleaning (cap : CapResult CleaningInfo) (st : PipelineState) :
    Bool × PipelineState :=
  match st.ocr_result with
  | none => (false, st)
  | some r =>
    if r.text = "" then (false, st)
    else
      match cap with
      | .raised e =>
        (true,
          { st with
            status := "cleaning_failed",
            error := some ("Cleaning step failed: " ++ e),
            cleaned_text := some r.text })
      | .ok info =>
        (true,
          { st with
            cleaned_text := some (info.cleaned_text.getD r.text),
            cleaning_info := some info,
            processing_steps := st.processing_steps ++ ["Cleaning"],
            status := "cleaning_completed" })

/-- The text a post-cleaning step works on
(`state.cleaned_text or state.ocr_result.text`). -/
def textToUse (st : PipelineState) : String :=
  pyOrString st.cleaned_text
    (match st.ocr_result with
     | some r => r.text
     | none => "")

/-- `IngestionPipeline.step_recommendation`: sets `status` on both success
and failure. -/
def step_recommendation (cap : CapResult RecommendationOutcome)
    (st : PipelineState) : Bool × PipelineState :=
  if textToUse st = "" then (false, st)
  else
    match cap with
    | .raised e =>
      (false,
        { st with
          status := "recommendation_failed",
          error := some ("Recommendation step failed: " ++ e) })
    | .ok outcome =>
      let st := { st with
        recommendation_result := some outcome,
        processing_steps := st.processing_steps ++ ["Recommendation"] }
      if outcome.status = "llm_success" then
        (true, { st with status := "llm_recommendation_completed" })
      else
        (false, { st with status := "recommendation_failed" })

/-- `IngestionPipeline.step_embedding`: failure sets only
`embedding_status`, never `status`. -/
def step_embedding (cap : CapResult (List ℚ)) (st : PipelineState) :
    Bool × PipelineState :=
  if textToUse st = "" then (false, st)
  else
    match cap with
    | .raised e =>
      (false,
        { st with
          embedding_status := "failed",
          error := some ("Embedding step failed: " ++ e) })
    | .ok emb =>
      let st := { st with embedding := some emb }
      if emb = [] then
        (false,
          { st with
            embedding_status := "failed",
            error := some "Embedding generation failed, returned empty vector." })
      else
        (true,
          { st with
            embedding_status := "success",
            processing_steps := st.processing_steps ++ ["Embedding"] })

/-- `IngestionPipeline._get_failed_step`. -/
def get_failed_step (st : PipelineState) : String :=
  if st.status = "failed" ∨ st.status = "ocr_failed" then "OCR"
  else if st.status = "cleaning_failed" then "Cleaning"
  else if st.status = "recommendation_failed" then "Recommendation"
  else if st.status = "embedding_failed" then "Embedding"
  else if st.status = "persistence_failed" then "Persistence"
  else "Unknown"

/-- Failure context attached to an error-store entry. -/
structure ErrorInfo where
  status : String
  error : Option String
  failed_step : String
  processing_steps : List String
deriving Repr, DecidableEq

/-- One entry of the error-document store. -/
structure ErrorDocument where
  id : Nat
  document : DocumentData
  info : ErrorInfo
deriving Repr, DecidableEq

/-- Modelled from the spec: `save_error_document` is imported by
`app/pipelines/ingestion.py` from `app.storage.local_storage` but is
absent from that module's source; per the spec (Persist step and the
error-document store layout) it writes the document payload together with
its failure context (failed step name, status, step log) to a separate
error store and returns an id of the saved entry. -/
def save_error_document (store : List ErrorDocument) (document : DocumentData)
    (info : ErrorInfo) : Nat × List ErrorDocument :=
  let eid := store.length
  (eid, store ++ [⟨eid, document, info⟩])

/-- The two persistent sinks the Persist step can write to. -/
structure Stores where
  main : LocalStorage
  errors : List ErrorDocument
deriving Repr, DecidableEq

/-- `IngestionPipeline.step_persist`: error documents go to the error
store with their failure context; normal documents go to the local store
and are then best-effort forwarded to the remote collaborator (a raising
remote call leaves the local save in place and marks the state
`persistence_failed`). -/
def step_persist (remote : CapResult Nat) (st : PipelineState) (is_error : Bool)
    (stores : Stores) : Bool × PipelineState × Stores :=
  let document_data := outputToDocumentData (to_output_dict st) (some st.image_url)
  if is_error then
    let r := save_error_document stores.errors document_data
      ⟨st.status, st.error, get_failed_step st, st.processing_steps⟩
    (true, { st with document_id := some r.1 }, { stores with errors := r.2 })
  else
    let r := save_document stores.main document_data
    let st1 := { st with document_id := some r.1 }
    let stores1 := { stores with main := r.2 }
    match remote with
    | .raised e =>
      (false,
        { st1 with
          status := "persistence_failed",
          error := some ("Persistence step failed: " ++ e) },
        stores1)
    | .ok _ =>
      (true,
        { st1 with
          processing_steps := st1.processing_steps ++ ["Persistence"],
          status := "completed" },
        stores1)

/-- The statuses `IngestionPipeline.run` routes to the error store. -/
def failedStatuses : List String :=
  ["failed", "ocr_failed", "recommendation_failed", "embedding_failed"]

/-- `IngestionPipeline.run`.  The source runs Recommendation and Embedding
concurrently via `asyncio.gather`; the two steps write disjoint state
fields (only the relative order of their step-log appends and the shared
error message depend on the interleaving), so they are modelled
sequentially. -/
def run (caps : IngestionCaps) (image_url : String) (owner_id : Int)
    (document_id : Option Nat) (skip_persist : Bool) (stores : Stores) :
    OutputDict × Stores :=
  let st0 := initState image_url owner_id document_id
  let r1 := step_ocr caps.ocr st0
  if ¬ r1.1 then (to_output_dict r1.2, stores)
  else
    let r2 := step_cleaning caps.cleaner r1.2
    let r3 := step_recommendation caps.recommender r2.2
    let r4 := step_embedding caps.embedder r3.2
    if skip_persist then (to_output_dict r4.2, stores)
    else
      let is_failed := decide (r4.2.status ∈ failedStatuses)
      let r5 := step_persist caps.remote r4.2 is_failed stores
      (to_output_dict r5.2.1, r5.2.2)

/-- Python-truthiness test of an OCR step outcome that fails: a raised
extraction, a `None` result or empty text. -/
def ocrFailed : CapResult (Option OCRResult) → Bool
  | .raised _ => true
  | .ok none => true
  | .ok (some r) => r.text == ""

/- ------------------------------------------------------------------ -/
/- Concrete instances used by counterexamples and witnesses            -/
/- ------------------------------------------------------------------ -/

/-- Two-location catalog: a tax-flavoured location and a neutral one. -/
def c2Locations : List StorageLocation :=
  [⟨1, "Tax desk", "office filing"⟩, ⟨2, "Kitchen", "shelf"⟩]

/-- One mapping making location 1 used (by an unrelated category 99). -/
def c2Mappings : List LocationMapping :=
  [⟨1, some 1, some 99, 8, true⟩]

/-- A catalog already containing a category with the registry's first
canonical code. -/
def c3Categories : List DocumentCategory :=
  [⟨1, "TAX", "Tax Documents", "Existing tax category"⟩]

/-- A NEW_CATEGORY proposal that omits code, name and description. -/
def c3Proposal : CategoryProposal :=
  ⟨"NEW_CATEGORY", "", "", ""⟩

/-- A payload carrying a non-empty vector but an explicit declared
dimension of 0 (claim C7's edge case). -/
def zeroDimPayloadA : DocumentData :=
  { owner_id := some 1, source := some "s", image_path := none,
    extracted_text := some "txt", ocr_confidence := none,
    embedding := [1], embedding_dimension := some 0,
    recommendation_data := none, recommendation_status := none,
    processing_steps := [], status := some "completed" }

/-- A second such payload, used for the round-trip counterexample. -/
def zeroDimPayloadB : DocumentData :=
  { owner_id := some 2, source := some "src", image_path := none,
    extracted_text := some "body", ocr_confidence := none,
    embedding := [2], embedding_dimension := some 0,
    recommendation_data := none, recommendation_status := none,
    processing_steps := [], status := some "done" }

/-- Fresh main and error stores. -/
def emptyStores : Stores := ⟨LocalStorage.empty, []⟩

/-- A minimal recommendation payload. -/
def demoRecData : RecommendationData := ⟨some "Shelf", ["tag"]⟩

/-- Capabilities for a run in which everything succeeds except the
embedding, which returns an empty vector. -/
def embeddingFailCaps : IngestionCaps :=
  { ocr := .ok (some ⟨"hello text", none⟩)
    cleaner := .ok ⟨some "hello text"⟩
    recommender := .ok ⟨"llm_success", some demoRecData, none⟩
    embedder := .ok []
    remote := .ok 1 }

/-- Capabilities for a run in which the OCR call raises. -/
def ocrRaiseCaps : IngestionCaps :=
  { ocr := .raised "boom"
    cleaner := .ok ⟨none⟩
    recommender := .ok ⟨"llm_success", some demoRecData, none⟩
    embedder := .ok [1]
    remote := .ok 1 }

/- ================================================================== -/
/- Theorems                                                            -/
/- ================================================================== -/

/- Helper lemmas on the Python-semantics combinators. -/

theorem foldl_pyMax_spec {α : Type} (f : α → Nat) :
    ∀ (xs : List α) (x : α),
    (xs.foldl (fun acc z => if f z > f acc then z else acc) x) ∈ x :: xs ∧
    ∀ y ∈ x :: xs, f y ≤ f (xs.foldl (fun acc z => if f z > f acc then z else acc) x)
  | [], x => by
    constructor
    · simp
    · intro y hy
      simp at hy
      simp [hy]
  | z :: zs, x => by
    have step := foldl_pyMax_spec f zs (if f z > f x then z else x)
    simp only [List.foldl]
    constructor
    · rcases List.mem_cons.mp step.1 with heq | hmem'
      · rw [heq]
        by_cases hzx : f z > f x
        · simp [hzx]
        · simp [hzx]
      · exact List.mem_cons_of_mem _ (List.mem_cons_of_mem _ hmem')
    · intro y hy
      have hw := step.2 _ (List.mem_cons_self _ _)
      have hxw : f x ≤ f (if f z > f x then z else x) := by
        by_cases hzx : f z > f x <;> simp [hzx] <;> try omega
      have hzw : f z ≤ f (if f z > f x then z else x) := by
        by_cases hzx : f z > f x <;> simp [hzx] <;> try omega
      rcases List.mem_cons.mp hy with rfl | hy'
      · omega
      · rcases List.mem_cons.mp hy' with rfl | hy2
        · omega
        · exact step.2 _ (List.mem_cons_of_mem _ hy2)

theorem pyMaxBy_spec {α : Type} (f : α → Nat) (l : List α) (m : α)
    (h : pyMaxBy f l = some m) : m ∈ l ∧ ∀ x ∈ l, f x ≤ f m := by
  cases l with
  | nil => simp [pyMaxBy] at h
  | cons x xs =>
    simp only [pyMaxBy, Option.some.injEq] at h
    subst h
    exact foldl_pyMax_spec f xs x

theorem pyMaxBy_isSome {α : Type} (f : α → Nat) (l : List α) (h : l ≠ []) :
    ∃ m, pyMaxBy f l = some m := by
  cases l with
  | nil => exact absurd rfl h
  | cons x xs => exact ⟨_, rfl⟩

theorem insertDescBy_perm {α β : Type} [LinearOrder β] (key : α → β) (x : α)
    (l : List α) : List.Perm (insertDescBy key x l) (x :: l) := by
  induction l with
  | nil => simp [insertDescBy]
  | cons y ys ih =>
    by_cases h : key x < key y
    · simp only [insertDescBy, if_pos h]
      exact (ih.cons y).trans (List.Perm.swap x y ys)
    · simp [insertDescBy, if_neg h]

theorem sortDescBy_perm {α β : Type} [LinearOrder β] (key : α → β) (l : List α) :
    List.Perm (sortDescBy key l) l := by
  induction l with
  | nil => simp [sortDescBy]
  | cons x xs ih =>
    have h1 : sortDescBy key (x :: xs) = insertDescBy key x (sortDescBy key xs) := rfl
    rw [h1]
    exact (insertDescBy_perm key x _).trans (ih.cons x)

theorem pairwise_insertDescBy {α β : Type} [LinearOrder β] (key : α → β) (x : α)
    (l : List α) (h : l.Pairwise (fun a b => key b ≤ key a)) :
    (insertDescBy key x l).Pairwise (fun a b => key b ≤ key a) := by
  induction l with
  | nil => simp [insertDescBy]
  | cons y ys ih =>
    rcases List.pairwise_cons.mp h with ⟨hy, hys⟩
    by_cases hc : key x < key y
    · simp only [insertDescBy, if_pos hc]
      refine List.pairwise_cons.mpr ⟨?_, ih hys⟩
      intro b hb
      rcases List.mem_cons.mp ((insertDescBy_perm key x ys).mem_iff.mp hb) with rfl | hb'
      · exact le_of_lt hc
      · exact hy b hb'
    · simp only [insertDescBy, if_neg hc]
      refine List.pairwise_cons.mpr ⟨?_, h⟩
      intro b hb
      rcases List.mem_cons.mp hb with rfl | hb'
      · exact le_of_not_lt hc
      · exact le_trans (hy b hb') (le_of_not_lt hc)

theorem pairwise_sortDescBy {α β : Type} [LinearOrder β] (key : α → β) (l : List α) :
    (sortDescBy key l).Pairwise (fun a b => key b ≤ key a) := by
  induction l with
  | nil => simp [sortDescBy]
  | cons x xs ih => exact pairwise_insertDescBy key x _ ih

/- Helper lemmas on the dot product and the norm. -/

theorem dotQ_nil_left (b : List ℚ) : dotQ [] b = 0 := by
  simp [dotQ]

theorem dotQ_nil_right (a : List ℚ) : dotQ a [] = 0 := by
  cases a <;> simp [dotQ]

theorem dotQ_cons (x y : ℚ) (a b : List ℚ) :
    dotQ (x :: a) (y :: b) = x * y + dotQ a b := by
  simp [dotQ]

theorem dotQ_comm : ∀ a b : List ℚ, dotQ a b = dotQ b a
  | [], b => by rw [dotQ_nil_left, dotQ_nil_right]
  | a, [] => by rw [dotQ_nil_left, dotQ_nil_right]
  | x :: a, y :: b => by
    rw [dotQ_cons, dotQ_cons, dotQ_comm a b, mul_comm]

theorem dotQ_self_nonneg : ∀ a : List ℚ, 0 ≤ dotQ a a
  | [] => le_of_eq (dotQ_nil_left []).symm
  | x :: a => by
    rw [dotQ_cons]
    exact add_nonneg (mul_self_nonneg x) (dotQ_self_nonneg a)

theorem dotQ_self_pos : ∀ a : List ℚ, (∃ x ∈ a, x ≠ 0) → 0 < dotQ a a
  | [], h => by simp at h
  | x :: a, h => by
    rw [dotQ_cons]
    rcases h with ⟨x0, hmem, hne⟩
    rcases List.mem_cons.mp hmem with rfl | hmem'
    · exact add_pos_of_pos_of_nonneg (mul_self_pos.mpr hne) (dotQ_self_nonneg a)
    · exact add_pos_of_nonneg_of_pos (mul_self_nonneg x)
        (dotQ_self_pos a ⟨x0, hmem', hne⟩)

theorem vecNorm_eq_zero_iff (v : List ℚ) : vecNorm v = 0 ↔ dotQ v v = 0 := by
  unfold vecNorm
  rw [Real.sqrt_eq_zero (by exact_mod_cast dotQ_self_nonneg v)]
  exact_mod_cast Iff.rfl

/-- C6: for every non-zero vector `a`, `Score(a, a)` is exactly 1 in the
real-arithmetic model (the claim's `≈ 1.0` allows for float rounding);
`Score` is symmetric; and it returns 0 for an empty vector, a length
mismatch or a zero-norm vector — the function is total, so no
divide-by-zero can be raised. -/
theorem C6_cosine_properties (a b : List ℚ) :
    ((∃ x ∈ a, x ≠ 0) → cosine_similarity a a = 1) ∧
    cosine_similarity a b = cosine_similarity b a ∧
    cosine_similarity [] b = 0 ∧
    cosine_similarity a [] = 0 ∧
    (a.length ≠ b.length → cosine_similarity a b = 0) ∧
    (vecNorm a = 0 ∨ vecNorm b = 0 → cosine_similarity a b = 0) := by
  refine ⟨?_, ?_, ?_, ?_, ?_, ?_⟩
  · intro h
    have hd : 0 < dotQ a a := dotQ_self_pos a h
    have hne : a ≠ [] := by
      rintro rfl
      rw [dotQ_nil_left] at hd
      exact lt_irrefl 0 hd
    have hnorm : ¬ (vecNorm a = 0 ∨ vecNorm a = 0) := by
      rw [or_self, vecNorm_eq_zero_iff]
      exact hd.ne'
    unfold cosine_similarity
    rw [if_neg (by simp [hne]), if_neg (by simp), if_neg hnorm]
    have hcast : (0 : ℝ) < ((dotQ a a : ℚ) : ℝ) := by exact_mod_cast hd
    rw [vecNorm, Real.mul_self_sqrt (le_of_lt hcast)]
    exact div_self (ne_of_gt hcast)
  · by_cases h1 : a = [] ∨ b = []
    · unfold cosine_similarity
      rw [if_pos h1, if_pos (Or.symm h1)]
    · by_cases h2 : a.length ≠ b.length
      · unfold cosine_similarity
        rw [if_neg h1, if_neg (fun hh => h1 (Or.symm hh)),
          if_pos h2, if_pos (fun he => h2 he.symm)]
      · have heq : a.length = b.length := not_ne_iff.mp h2
        by_cases h3 : vecNorm a = 0 ∨ vecNorm b = 0
        · unfold cosine_similarity
          rw [if_neg h1, if_neg (fun hh => h1 (Or.symm hh)),
            if_neg h2, if_neg (not_ne_iff.mpr heq.symm),
            if_pos h3, if_pos (Or.symm h3)]
        · unfold cosine_similarity
          rw [if_neg h1, if_neg (fun hh => h1 (Or.symm hh)),
            if_neg h2, if_neg (not_ne_iff.mpr heq.symm),
            if_neg h3, if_neg (fun hh => h3 (Or.symm hh)),
            dotQ_comm a b, mul_comm]
  · simp [cosine_similarity]
  · unfold cosine_similarity
    rw [if_pos (Or.inr rfl)]
  · intro h
    by_cases h1 : a = [] ∨ b = []
    · unfold cosine_similarity
      rw [if_pos h1]
    · unfold cosine_similarity
      rw [if_neg h1, if_pos h]
  · intro h
    by_cases h1 : a = [] ∨ b = []
    · unfold cosine_similarity
      rw [if_pos h1]
    · by_cases h2 : a.length ≠ b.length
      · unfold cosine_similarity
        rw [if_neg h1, if_pos h2]
      · unfold cosine_similarity
        rw [if_neg h1, if_neg h2, if_pos h]

/-- Witness for C6 at concrete vectors. -/
theorem C6_cosine_witness :
    cosine_similarity [1] [1] = 1 ∧
    cosine_similarity [1, 0] [0, 1] = cosine_similarity [0, 1] [1, 0] ∧
    cosine_similarity [] [1] = 0 ∧
    cosine_similarity [1] [1, 1] = 0 :=
  ⟨(C6_cosine_properties [1] [1]).1 ⟨1, by decide, by decide⟩,
   (C6_cosine_properties [1, 0] [0, 1]).2.1,
   (C6_cosine_properties [] [1]).2.2.1,
   (C6_cosine_properties [1] [1, 1]).2.2.2.2.1 (by decide)⟩

/- Helper lemmas on the document store. -/

theorem save_document_spec (s : LocalStorage) (dd : DocumentData) :
    (save_document s dd).1 = s.nextId ∧
    (∃ ip,
      (save_document s dd).2.documents =
        (s.nextId,
          { id := s.nextId
            created_at := s.clock
            owner_id := dd.owner_id
            source := dd.source
            image_path := ip
            extracted_text := dd.extracted_text.getD ""
            ocr_confidence := dd.ocr_confidence
            has_embedding := decide (0 < dd.embedding.length)
            embedding_dimension :=
              dd.embedding_dimension.getD
                (if dd.embedding = [] then 0 else (dd.embedding.length : Int))
            recommendation_data := dd.recommendation_data
            recommendation_status := dd.recommendation_status
            metadata := ⟨dd.processing_steps, dd.status.getD "unknown"⟩ }) :: s.documents) ∧
    ((dd.embedding ≠ [] ∧
        dd.embedding_dimension.getD
          (if dd.embedding = [] then 0 else (dd.embedding.length : Int)) ≠ 0) →
      (save_document s dd).2.embeddings =
        (s.nextId,
          ⟨s.nextId, dd.embedding,
            dd.embedding_dimension.getD
              (if dd.embedding = [] then 0 else (dd.embedding.length : Int)),
            s.clock⟩) :: s.embeddings) := by
  refine ⟨rfl, ?_, ?_⟩
  · rcases hip : dd.image_path with _ | p
    · by_cases he : dd.embedding = []
      · exact ⟨none, by simp [save_document, save_image, _save_embedding, hip, he]⟩
      · by_cases hdim : dd.embedding_dimension.getD ((dd.embedding.length : Int)) = 0
        · exact ⟨none, by simp [save_document, save_image, _save_embedding, hip, he, hdim]⟩
        · exact ⟨none, by simp [save_document, save_image, _save_embedding, hip, he, hdim]⟩
    · by_cases hp : p = ""
      · by_cases he : dd.embedding = []
        · exact ⟨none, by simp [save_document, save_image, _save_embedding, hip, hp, he]⟩
        · by_cases hdim : dd.embedding_dimension.getD ((dd.embedding.length : Int)) = 0
          · exact ⟨none,
              by simp [save_document, save_image, _save_embedding, hip, hp, he, hdim]⟩
          · exact ⟨none,
              by simp [save_document, save_image, _save_embedding, hip, hp, he, hdim]⟩
      · by_cases he : dd.embedding = []
        · exact ⟨some ("images/" ++ toString s.nextId),
            by simp [save_document, save_image, _save_embedding, hip, hp, he]⟩
        · by_cases hdim : dd.embedding_dimension.getD ((dd.embedding.length : Int)) = 0
          · exact ⟨some ("images/" ++ toString s.nextId),
              by simp [save_document, save_image, _save_embedding, hip, hp, he, hdim]⟩
          · exact ⟨some ("images/" ++ toString s.nextId),
              by simp [save_document, save_image, _save_embedding, hip, hp, he, hdim]⟩
  · rintro ⟨he, hdim⟩
    rw [if_neg he] at hdim
    rcases hip : dd.image_path with _ | p
    · simp [save_document, save_image, _save_embedding, hip, he, hdim]
    · by_cases hp : p = "" <;>
        simp [save_document, save_image, _save_embedding, hip, hp, he, hdim]

/-- C10: deleting a document whose body file does not exist returns
`false` and leaves the whole storage state — files, embeddings, images and
both index structures — unchanged. -/
theorem C10_delete_missing (s : LocalStorage) (doc_id : Nat)
    (h : s.documents.lookup doc_id = none) :
    delete_document s doc_id = (false, s) := by
  unfold delete_document
  rw [h]

/-- Witness for C10 on the empty store. -/
theorem C10_delete_missing_witness :
    delete_document LocalStorage.empty 5 = (false, LocalStorage.empty) :=
  C10_delete_missing LocalStorage.empty 5 rfl

/-- C7: evaluating `save_document` at the failing input — a payload with a
non-empty vector and an explicit `embedding_dimension` of 0 — stores a
DocumentRecord with `has_embedding = true` but writes no EmbeddingRecord,
violating the invariant the claim states. -/
theorem C7_failing_input :
    ((save_document LocalStorage.empty zeroDimPayloadA).2.documents.lookup
      (save_document LocalStorage.empty zeroDimPayloadA).1).map
      (fun r => r.has_embedding) = some true ∧
    (save_document LocalStorage.empty zeroDimPayloadA).2.embeddings.lookup
      (save_document LocalStorage.empty zeroDimPayloadA).1 = none := by
  decide

/-- Counterexample to C4 as stated: saving a payload whose vector is `[2]`
but whose explicit declared dimension is 0, then reading it back with
`includeEmbedding = true`, yields the empty vector, not `[2]`. -/
theorem C4_roundtrip_counterexample :
    zeroDimPayloadB.embedding = [2] ∧
    (get_document (save_document LocalStorage.empty zeroDimPayloadB).2
        (save_document LocalStorage.empty zeroDimPayloadB).1 true).map
      (fun p => p.2) = some (some []) ∧
    (some ([] : List ℚ)) ≠ some [2] := by
  decide

/-- C4 amended: `Get(Save(doc))` always returns a record whose text, owner
and status equal the saved input's; the embedding round-trip holds for a
non-empty vector whenever the payload does not declare an (explicit or
derived) embedding dimension of 0. -/
theorem C4_roundtrip (s : LocalStorage) (dd : DocumentData) :
    (∃ rec,
      get_document (save_document s dd).2 (save_document s dd).1 false =
        some (rec, none) ∧
      rec.extracted_text = dd.extracted_text.getD "" ∧
      rec.owner_id = dd.owner_id ∧
      rec.metadata.status = dd.status.getD "unknown") ∧
    (dd.embedding ≠ [] →
      dd.embedding_dimension.getD (dd.embedding.length : Int) ≠ 0 →
      (get_document (save_document s dd).2 (save_document s dd).1 true).map
        (fun p => p.2) = some (some dd.embedding)) := by
  obtain ⟨hid, ⟨ip, hdocs⟩, hemb⟩ := save_document_spec s dd
  constructor
  · exact
      let rec0 : DocumentRecord :=
        { id := s.nextId
          created_at := s.clock
          owner_id := dd.owner_id
          source := dd.source
          image_path := ip
          extracted_text := dd.extracted_text.getD ""
          ocr_confidence := dd.ocr_confidence
          has_embedding := decide (0 < dd.embedding.length)
          embedding_dimension :=
            dd.embedding_dimension.getD
              (if dd.embedding = [] then 0 else (dd.embedding.length : Int))
          recommendation_data := dd.recommendation_data
          recommendation_status := dd.recommendation_status
          metadata := ⟨dd.processing_steps, dd.status.getD "unknown"⟩ }
      ⟨rec0,
        by rw [hid]; unfold get_document; rw [hdocs]; simp [List.lookup],
        rfl, rfl, rfl⟩
  · intro h1 h2
    have h2' :
        dd.embedding_dimension.getD
          (if dd.embedding = [] then 0 else (dd.embedding.length : Int)) ≠ 0 := by
      rw [if_neg h1]
      exact h2
    have he := hemb ⟨h1, h2'⟩
    rw [hid]
    unfold get_document
    rw [hdocs, he]
    simp [List.lookup]

/-- Witness for C4's amended round-trip at a concrete payload. -/
theorem C4_roundtrip_witness :
    (∃ rec,
      get_document (save_document LocalStorage.empty zeroDimPayloadA).2
          (save_document LocalStorage.empty zeroDimPayloadA).1 false =
        some (rec, none) ∧
      rec.extracted_text = zeroDimPayloadA.extracted_text.getD "" ∧
      rec.owner_id = zeroDimPayloadA.owner_id ∧
      rec.metadata.status = zeroDimPayloadA.status.getD "unknown") ∧
    (zeroDimPayloadA.embedding ≠ [] →
      zeroDimPayloadA.embedding_dimension.getD
        (zeroDimPayloadA.embedding.length : Int) ≠ 0 →
      (get_document (save_document LocalStorage.empty zeroDimPayloadA).2
          (save_document LocalStorage.empty zeroDimPayloadA).1 true).map
        (fun p => p.2) = some (some zeroDimPayloadA.embedding)) :=
  C4_roundtrip LocalStorage.empty zeroDimPayloadA

/- Helper lemmas on the category engine. -/

theorem pickCategoryCode_of_allowed (cats : List DocumentCategory) (name code : String)
    (h1 : is_allowed_category_type code = true) (h2 : code ≠ "") :
    pickCategoryCode cats name (some code) = code := by
  unfold pickCategoryCode
  simp only [Option.getD_some]
  rw [if_neg (not_or.mpr ⟨h2, fun hn => hn h1⟩)]

theorem ensure_category_exists_found (cats : List DocumentCategory)
    (code name description : String) (c : DocumentCategory)
    (h : cats.find? (matchesCode code) = some c) :
    ensure_category_exists cats code name description = (c, cats) := by
  unfold ensure_category_exists
  rw [h]

theorem ensure_category_exists_not_found (cats : List DocumentCategory)
    (code name description : String)
    (h : cats.find? (matchesCode code) = none) :
    ensure_category_exists cats code name description =
      add_new_category cats name description (some code) := by
  unfold ensure_category_exists
  rw [h]

theorem add_new_category_allowed (cats : List DocumentCategory)
    (name description code : String)
    (h1 : is_allowed_category_type code = true) (h2 : code ≠ "") :
    (add_new_category cats name description (some code)).1.code = code ∧
    (add_new_category cats name description (some code)).1.name = name ∧
    (add_new_category cats name description (some code)).1.description = description ∧
    (add_new_category cats name description (some code)).2 =
      cats ++ [(add_new_category cats name description (some code)).1] := by
  simp [add_new_category, pickCategoryCode_of_allowed cats name code h1 h2]

theorem matchesCode_self (code name description : String) (i : Int) :
    matchesCode code ⟨i, code, name, description⟩ = true := by
  simp [matchesCode]

/-- Counterexample to C9 as stated: with an empty catalog and the
non-canonical code "ZZZZ", the two successive calls return categories with
different ids (1 and then 2), and the final catalog contains no category
with code "ZZZZ" at all — `add_new_category` silently replaces a
non-canonical code with a canonical one, so the second call cannot find
the first call's category. -/
theorem C9_counterexample :
    (ensure_category_exists [] "ZZZZ" "Zed" "Zed docs").1.id = 1 ∧
    (ensure_category_exists (ensure_category_exists [] "ZZZZ" "Zed" "Zed docs").2
      "ZZZZ" "Zed" "Zed docs").1.id = 2 ∧
    ((ensure_category_exists (ensure_category_exists [] "ZZZZ" "Zed" "Zed docs").2
      "ZZZZ" "Zed" "Zed docs").2.countP (matchesCode "ZZZZ")) = 0 := by
  decide

/-- C9 amended: `EnsureCategoryExists` is idempotent — same category both
times, no duplicate created, exactly one category with the code
afterwards — provided the code is in the allowed-type registry
(case-insensitively) and the catalog does not already hold duplicates of
it.  (For a code outside the registry the created category receives a
substituted code, so a second call creates a fresh category; see the
counterexample.) -/
theorem C9_ensure_idempotent (cats : List DocumentCategory)
    (code name description : String)
    (hallowed : is_allowed_category_type code = true)
    (hcount : cats.countP (matchesCode code) ≤ 1) :
    (ensure_category_exists cats code name description).1 =
      (ensure_category_exists (ensure_category_exists cats code name description).2
        code name description).1 ∧
    (ensure_category_exists (ensure_category_exists cats code name description).2
        code name description).2 =
      (ensure_category_exists cats code name description).2 ∧
    (ensure_category_exists cats code name description).2.countP
      (matchesCode code) = 1 := by
  have hc0 : code ≠ "" := by
    intro h
    subst h
    exact absurd hallowed (by decide)
  cases hfind : cats.find? (matchesCode code) with
  | some c =>
    have h1 := ensure_category_exists_found cats code name description c hfind
    have hpos : 0 < cats.countP (matchesCode code) :=
      List.countP_pos.mpr ⟨c, List.mem_of_find?_eq_some hfind, List.find?_some hfind⟩
    refine ⟨?_, ?_, ?_⟩
    · simp only [h1]
    · simp only [h1]
    · simp only [h1]
      exact Nat.le_antisymm hcount hpos
  | none =>
    have h1 := ensure_category_exists_not_found cats code name description hfind
    obtain ⟨hcode, hname, hdesc, htail⟩ :=
      add_new_category_allowed cats name description code hallowed hc0
    have hmatch :
        matchesCode code (add_new_category cats name description (some code)).1 = true := by
      simp [matchesCode, hcode]
    have hfind2 :
        (cats ++ [(add_new_category cats name description (some code)).1]).find?
          (matchesCode code) =
        some (add_new_category cats name description (some code)).1 := by
      rw [List.find?_append, hfind]
      simp [hmatch]
    have h2 := ensure_category_exists_found _ code name description _ hfind2
    have hz : cats.countP (matchesCode code) = 0 := by
      rw [List.countP_eq_zero]
      intro a ha
      exact (List.find?_eq_none.mp hfind) a ha
    refine ⟨?_, ?_, ?_⟩
    · simp only [h1, htail, h2]
    · simp only [h1, htail, h2]
    · simp only [h1, htail, List.countP_append, hz]
      simp [hmatch]

/-- Witness for C9's amended idempotence at a concrete canonical code. -/
theorem C9_ensure_idempotent_witness :
    (ensure_category_exists [] "TAX" "Tax" "Tax docs").1 =
      (ensure_category_exists (ensure_category_exists [] "TAX" "Tax" "Tax docs").2
        "TAX" "Tax" "Tax docs").1 ∧
    (ensure_category_exists (ensure_category_exists [] "TAX" "Tax" "Tax docs").2
        "TAX" "Tax" "Tax docs").2 =
      (ensure_category_exists [] "TAX" "Tax" "Tax docs").2 ∧
    (ensure_category_exists [] "TAX" "Tax" "Tax docs").2.countP
      (matchesCode "TAX") = 1 :=
  C9_ensure_idempotent [] "TAX" "Tax" "Tax docs" (by decide) (by decide)

/-- Counterexample to C3 as stated: with a catalog already holding a
category coded TAX (the registry's first code) and a NEW_CATEGORY proposal
with a missing canonical code, the engine substitutes "TAX" — a code
already used — and idempotently reuses the existing category, while the
claim's substitution rule ("first canonical code not yet used") demands
"BANK". -/
theorem C3_counterexample :
    (resolve_new_category c3Categories c3Proposal).1 =
      ⟨1, "TAX", "Tax Documents", "Existing tax category"⟩ ∧
    (resolve_new_category c3Categories c3Proposal).2 = c3Categories ∧
    spec_first_unused_canonical c3Categories = some "BANK" := by
  decide

/-- C3 amended: whenever the proposal is the NEW_CATEGORY marker and its
canonical code is missing or not in the registry, the engine substitutes
the registry's first code "TAX" regardless of whether it is already used;
when no category with that code exists it creates one, synthesizing
name/description from the suggestion table — which has no TAX entry, so
the code itself and a generic description are used — and when a TAX-coded
category already exists it is reused unchanged. -/
theorem C3_new_category_resolution (cats : List DocumentCategory)
    (p : CategoryProposal)
    (hcode : pyStrip (pyUpper p.new_category_code) = "" ∨
      is_allowed_category_type (pyStrip (pyUpper p.new_category_code)) = false) :
    pyUpper (resolve_new_category cats p).1.code = "TAX" ∧
    (∀ c, cats.find? (matchesCode "TAX") = some c →
      resolve_new_category cats p = (c, cats)) ∧
    (cats.find? (matchesCode "TAX") = none →
      (resolve_new_category cats p).1.code = "TAX" ∧
      (resolve_new_category cats p).2 =
        cats ++ [(resolve_new_category cats p).1] ∧
      ((p.new_category_name = "" ∨ p.new_category_description = "") →
        (resolve_new_category cats p).1.name = "TAX" ∧
        (resolve_new_category cats p).1.description =
          "Category for documents classified as TAX") ∧
      (¬ (p.new_category_name = "" ∨ p.new_category_description = "") →
        (resolve_new_category cats p).1.name = p.new_category_name ∧
        (resolve_new_category cats p).1.description =
          p.new_category_description)) := by
  have hcond : pyStrip (pyUpper p.new_category_code) = "" ∨
      ¬ (is_allowed_category_type (pyStrip (pyUpper p.new_category_code)) = true) := by
    rcases hcode with h | h
    · exact Or.inl h
    · exact Or.inr (by simp [h])
  by_cases hnm : p.new_category_name = "" ∨ p.new_category_description = ""
  · have hres : resolve_new_category cats p =
        ensure_category_exists cats "TAX" "TAX"
          "Category for documents classified as TAX" := by
      simp only [resolve_new_category]
      rw [if_pos hcond, if_pos hnm]
      rw [show (ALLOWED_CATEGORY_TYPES.head?).getD "TAX" = "TAX" from rfl]
      rw [(by decide : get_category_suggestion "TAX" = none)]
      rfl
    refine ⟨?_, ?_, ?_⟩
    · rw [hres]
      cases hf : cats.find? (matchesCode "TAX") with
      | some c =>
        rw [ensure_category_exists_found _ _ _ _ _ hf]
        have hm := List.find?_some hf
        simp only [matchesCode, beq_iff_eq] at hm
        rw [hm]
        decide
      | none =>
        rw [ensure_category_exists_not_found _ _ _ _ hf]
        rw [(add_new_category_allowed cats "TAX"
          "Category for documents classified as TAX" "TAX" (by decide) (by decide)).1]
        decide
    · intro c hf
      rw [hres, ensure_category_exists_found _ _ _ _ _ hf]
    · intro hf
      rw [hres, ensure_category_exists_not_found _ _ _ _ hf]
      obtain ⟨hc, hn, hd, ht⟩ := add_new_category_allowed cats "TAX"
        "Category for documents classified as TAX" "TAX" (by decide) (by decide)
      exact ⟨hc, ht, fun _ => ⟨hn, hd⟩, fun hx => absurd hnm hx⟩
  · have hres : resolve_new_category cats p =
        ensure_category_exists cats "TAX" p.new_category_name
          p.new_category_description := by
      simp only [resolve_new_category]
      rw [if_pos hcond, if_neg hnm]
      rw [show (ALLOWED_CATEGORY_TYPES.head?).getD "TAX" = "TAX" from rfl]
    refine ⟨?_, ?_, ?_⟩
    · rw [hres]
      cases hf : cats.find? (matchesCode "TAX") with
      | some c =>
        rw [ensure_category_exists_found _ _ _ _ _ hf]
        have hm := List.find?_some hf
        simp only [matchesCode, beq_iff_eq] at hm
        rw [hm]
        decide
      | none =>
        rw [ensure_category_exists_not_found _ _ _ _ hf]
        rw [(add_new_category_allowed cats p.new_category_name
          p.new_category_description "TAX" (by decide) (by decide)).1]
        decide
    · intro c hf
      rw [hres, ensure_category_exists_found _ _ _ _ _ hf]
    · intro hf
      rw [hres, ensure_category_exists_not_found _ _ _ _ hf]
      obtain ⟨hc, hn, hd, ht⟩ := add_new_category_allowed cats p.new_category_name
        p.new_category_description "TAX" (by decide) (by decide)
      exact ⟨hc, ht, fun hx => absurd hx hnm, fun _ => ⟨hn, hd⟩⟩

/-- Witness for C3's amended resolution on the empty catalog. -/
theorem C3_new_category_resolution_witness :
    pyUpper (resolve_new_category [] c3Proposal).1.code = "TAX" ∧
    (∀ c, ([] : List DocumentCategory).find? (matchesCode "TAX") = some c →
      resolve_new_category [] c3Proposal = (c, [])) ∧
    (([] : List DocumentCategory).find? (matchesCode "TAX") = none →
      (resolve_new_category [] c3Proposal).1.code = "TAX" ∧
      (resolve_new_category [] c3Proposal).2 =
        [] ++ [(resolve_new_category [] c3Proposal).1] ∧
      ((c3Proposal.new_category_name = "" ∨
          c3Proposal.new_category_description = "") →
        (resolve_new_category [] c3Proposal).1.name = "TAX" ∧
        (resolve_new_category [] c3Proposal).1.description =
          "Category for documents classified as TAX") ∧
      (¬ (c3Proposal.new_category_name = "" ∨
          c3Proposal.new_category_description = "") →
        (resolve_new_category [] c3Proposal).1.name =
          c3Proposal.new_category_name ∧
        (resolve_new_category [] c3Proposal).1.description =
          c3Proposal.new_category_description)) :=
  C3_new_category_resolution [] c3Proposal (Or.inl (by decide))

/- Helper lemmas on the location-assignment engine. -/

theorem find_best_unused_location_pos (code : String)
    (locations : List StorageLocation) (used : List Int) (best : StorageLocation)
    (hb : pyMaxBy (score_location_for_category code)
      (locations.filter (fun loc => ¬ used.contains loc.id)) = some best)
    (hpos : 0 < score_location_for_category code best) :
    find_best_unused_location code locations used = some best.id := by
  unfold find_best_unused_location
  have hne : locations.filter (fun loc => ¬ used.contains loc.id) ≠ [] := by
    intro h
    rw [h] at hb
    simp [pyMaxBy] at hb
  rw [if_neg hne, hb]
  simp [hpos]

theorem find_best_unused_location_zero (code : String)
    (locations : List StorageLocation) (used : List Int) (best : StorageLocation)
    (hb : pyMaxBy (score_location_for_category code)
      (locations.filter (fun loc => ¬ used.contains loc.id)) = some best)
    (hz : score_location_for_category code best = 0) :
    find_best_unused_location code locations used =
      ((locations.filter (fun loc => ¬ used.contains loc.id)).head?).map
        (fun loc => loc.id) := by
  unfold find_best_unused_location
  have hne : locations.filter (fun loc => ¬ used.contains loc.id) ≠ [] := by
    intro h
    rw [h] at hb
    simp [pyMaxBy] at hb
  rw [if_neg hne, hb]
  simp [hz]

theorem find_best_unused_location_empty (code : String)
    (locations : List StorageLocation) (used : List Int)
    (h : locations.filter (fun loc => ¬ used.contains loc.id) = []) :
    find_best_unused_location code locations used = none := by
  unfold find_best_unused_location
  rw [if_pos h]

theorem find_best_location_any_pos (code : String)
    (locations : List StorageLocation) (best : StorageLocation)
    (hb : pyMaxBy (score_location_for_category code) locations = some best)
    (hpos : 0 < score_location_for_category code best) :
    find_best_location_any code locations = some best.id := by
  unfold find_best_location_any
  have hne : locations ≠ [] := by
    intro h
    rw [h] at hb
    simp [pyMaxBy] at hb
  rw [if_neg hne, hb]
  simp [hpos]

theorem find_best_location_any_zero (code : String)
    (locations : List StorageLocation) (best : StorageLocation)
    (hb : pyMaxBy (score_location_for_category code) locations = some best)
    (hz : score_location_for_category code best = 0) :
    find_best_location_any code locations =
      (locations.head?).map (fun loc => loc.id) := by
  unfold find_best_location_any
  have hne : locations ≠ [] := by
    intro h
    rw [h] at hb
    simp [pyMaxBy] at hb
  rw [if_neg hne, hb]
  simp [hz]

theorem truthyOptInt_some (v : Int) : truthyOptInt (some v) = true ↔ v ≠ 0 := by
  simp [truthyOptInt]

/-- Counterexample to C2 as stated: category TAX, a used location 1 whose
text matches TAX keywords, and an unused location 2 with score 0.  The
claim's steps pick location 1 (no unused location scores > 0, so score
every location), but the engine picks location 2 — `find_best_unused_location`
falls back to the first unused slot instead of rescoring the whole
catalog. -/
theorem C2_counterexample :
    assign_location_id "TAX" (some 7) c2Locations c2Mappings = some 2 ∧
    spec_claim_pick "TAX" c2Locations c2Mappings = some 1 ∧
    get_preferred_location_for_category c2Mappings (some 7) = none := by
  decide

/-- C2 amended: with no usable preferred mapping, the engine picks the
best unused location only when its keyword score is positive; when unused
locations exist but none scores positive it picks the first unused
location in catalog order (it does not rescore the whole catalog); only
when every location is already used does it score every location, picking
the best positive scorer, and falling back to the first location in
catalog order when nothing scores positive.  Location ids are assumed
non-zero (Python truthiness treats id 0 like None). -/
theorem C2_location_assignment (category_code : String) (category_id : Option Int)
    (locations : List StorageLocation) (mappings : List LocationMapping)
    (hne : locations ≠ [])
    (hids : ∀ loc ∈ locations, loc.id ≠ 0)
    (hnopref : ¬ (truthyOptInt (get_preferred_location_for_category mappings
        category_id) = true ∧
      (get_preferred_location_for_category mappings category_id).getD 0 ∈
        locations.map (fun loc => loc.id))) :
    ((∃ u ∈ locations.filter
        (fun loc => ¬ (get_used_location_ids mappings).contains loc.id),
        0 < score_location_for_category category_code u) →
      ∃ b ∈ locations.filter
        (fun loc => ¬ (get_used_location_ids mappings).contains loc.id),
        assign_location_id category_code category_id locations mappings =
          some b.id ∧
        0 < score_location_for_category category_code b ∧
        ∀ u ∈ locations.filter
          (fun loc => ¬ (get_used_location_ids mappings).contains loc.id),
          score_location_for_category category_code u ≤
            score_location_for_category category_code b) ∧
    ((locations.filter
        (fun loc => ¬ (get_used_location_ids mappings).contains loc.id) ≠ [] ∧
      (∀ u ∈ locations.filter
        (fun loc => ¬ (get_used_location_ids mappings).contains loc.id),
        score_location_for_category category_code u = 0)) →
      assign_location_id category_code category_id locations mappings =
        ((locations.filter
          (fun loc => ¬ (get_used_location_ids mappings).contains loc.id)).head?).map
          (fun loc => loc.id)) ∧
    ((locations.filter
        (fun loc => ¬ (get_used_location_ids mappings).contains loc.id) = [] ∧
      ∃ l ∈ locations, 0 < score_location_for_category category_code l) →
      ∃ b ∈ locations,
        assign_location_id category_code category_id locations mappings =
          some b.id ∧
        0 < score_location_for_category category_code b ∧
        ∀ l ∈ locations,
          score_location_for_category category_code l ≤
            score_location_for_category category_code b) ∧
    ((locations.filter
        (fun loc => ¬ (get_used_location_ids mappings).contains loc.id) = [] ∧
      (∀ l ∈ locations, score_location_for_category category_code l = 0)) →
      assign_location_id category_code category_id locations mappings =
        (locations.head?).map (fun loc => loc.id)) := by
  have hsub : ∀ x ∈ locations.filter
      (fun loc => ¬ (get_used_location_ids mappings).contains loc.id),
      x ∈ locations := fun x hx => (List.mem_filter.mp hx).1
  refine ⟨?_, ?_, ?_, ?_⟩
  · rintro ⟨u, hu, hupos⟩
    have hUne : locations.filter
        (fun loc => ¬ (get_used_location_ids mappings).contains loc.id) ≠ [] :=
      List.ne_nil_of_mem hu
    obtain ⟨best, hb⟩ :=
      pyMaxBy_isSome (score_location_for_category category_code) _ hUne
    obtain ⟨hbmem, hbmax⟩ := pyMaxBy_spec _ _ _ hb
    have hbpos : 0 < score_location_for_category category_code best :=
      lt_of_lt_of_le hupos (hbmax u hu)
    have hfb := find_best_unused_location_pos category_code locations
      (get_used_location_ids mappings) best hb hbpos
    have hbloc : best ∈ locations := hsub best hbmem
    have hbid : best.id ≠ 0 := hids best hbloc
    have hbval : best.id ∈ locations.map (fun loc => loc.id) :=
      List.mem_map.mpr ⟨best, hbloc, rfl⟩
    refine ⟨best, hbmem, ?_, hbpos, hbmax⟩
    simp only [assign_location_id]
    rw [if_neg hne, if_neg hnopref, hfb,
      if_pos ((truthyOptInt_some best.id).mpr hbid),
      if_pos ⟨(truthyOptInt_some best.id).mpr hbid, by simpa using hbval⟩]
  · rintro ⟨hUne, hall0⟩
    obtain ⟨best, hb⟩ :=
      pyMaxBy_isSome (score_location_for_category category_code) _ hUne
    obtain ⟨hbmem, _⟩ := pyMaxBy_spec _ _ _ hb
    have hz : score_location_for_category category_code best = 0 := hall0 best hbmem
    have hfb := find_best_unused_location_zero category_code locations
      (get_used_location_ids mappings) best hb hz
    obtain ⟨u0, us, hU⟩ := List.exists_cons_of_ne_nil hUne
    have hfb2 : find_best_unused_location category_code locations
        (get_used_location_ids mappings) = some u0.id := by
      rw [hfb, hU]
      rfl
    have hu0mem : u0 ∈ locations.filter
        (fun loc => ¬ (get_used_location_ids mappings).contains loc.id) := by
      rw [hU]
      exact List.mem_cons_self u0 us
    have hu0loc : u0 ∈ locations := hsub u0 hu0mem
    have hu0id : u0.id ≠ 0 := hids u0 hu0loc
    have hu0val : u0.id ∈ locations.map (fun loc => loc.id) :=
      List.mem_map.mpr ⟨u0, hu0loc, rfl⟩
    have hres : assign_location_id category_code category_id locations mappings =
        some u0.id := by
      simp only [assign_location_id]
      rw [if_neg hne, if_neg hnopref, hfb2,
        if_pos ((truthyOptInt_some u0.id).mpr hu0id),
        if_pos ⟨(truthyOptInt_some u0.id).mpr hu0id, by simpa using hu0val⟩]
    rw [hres, hU]
    rfl
  · rintro ⟨hUnil, l, hl, hlpos⟩
    have hfb := find_best_unused_location_empty category_code locations
      (get_used_location_ids mappings) hUnil
    obtain ⟨best, hb⟩ :=
      pyMaxBy_isSome (score_location_for_category category_code) _ hne
    obtain ⟨hbmem, hbmax⟩ := pyMaxBy_spec _ _ _ hb
    have hbpos : 0 < score_location_for_category category_code best :=
      lt_of_lt_of_le hlpos (hbmax l hl)
    have hfa := find_best_location_any_pos category_code locations best hb hbpos
    have hbid : best.id ≠ 0 := hids best hbmem
    have hbval : best.id ∈ locations.map (fun loc => loc.id) :=
      List.mem_map.mpr ⟨best, hbmem, rfl⟩
    have hstep : (if truthyOptInt (find_best_unused_location category_code
          locations (get_used_location_ids mappings)) = true
        then find_best_unused_location category_code locations
          (get_used_location_ids mappings)
        else find_best_location_any category_code locations) = some best.id := by
      rw [hfb]
      simp [truthyOptInt, hfa]
    refine ⟨best, hbmem, ?_, hbpos, hbmax⟩
    simp only [assign_location_id]
    rw [if_neg hne, if_neg hnopref, hstep,
      if_pos ⟨(truthyOptInt_some best.id).mpr hbid, by simpa using hbval⟩]
  · rintro ⟨hUnil, hall0⟩
    have hfb := find_best_unused_location_empty category_code locations
      (get_used_location_ids mappings) hUnil
    obtain ⟨best, hb⟩ :=
      pyMaxBy_isSome (score_location_for_category category_code) _ hne
    obtain ⟨hbmem, _⟩ := pyMaxBy_spec _ _ _ hb
    have hz : score_location_for_category category_code best = 0 := hall0 best hbmem
    have hfa := find_best_location_any_zero category_code locations best hb hz
    obtain ⟨l0, ls, hL⟩ := List.exists_cons_of_ne_nil hne
    have hfa2 : find_best_location_any category_code locations = some l0.id := by
      rw [hfa, hL]
      rfl
    have hl0loc : l0 ∈ locations := by
      rw [hL]
      exact List.mem_cons_self l0 ls
    have hl0id : l0.id ≠ 0 := hids l0 hl0loc
    have hl0val : l0.id ∈ locations.map (fun loc => loc.id) :=
      List.mem_map.mpr ⟨l0, hl0loc, rfl⟩
    have hstep : (if truthyOptInt (find_best_unused_location category_code
          locations (get_used_location_ids mappings)) = true
        then find_best_unused_location category_code locations
          (get_used_location_ids mappings)
        else find_best_location_any category_code locations) = some l0.id := by
      rw [hfb]
      simp [truthyOptInt, hfa2]
    have hres : assign_location_id category_code category_id locations mappings =
        some l0.id := by
      simp only [assign_location_id]
      rw [if_neg hne, if_neg hnopref, hstep,
        if_pos ⟨(truthyOptInt_some l0.id).mpr hl0id, by simpa using hl0val⟩]
    rw [hres, hL]
    rfl

/-- Witness for C2's amended assignment policy on a concrete catalog with
no mappings. -/
theorem C2_location_assignment_witness :
    ((∃ u ∈ c2Locations.filter
        (fun loc => ¬ (get_used_location_ids []).contains loc.id),
        0 < score_location_for_category "TAX" u) →
      ∃ b ∈ c2Locations.filter
        (fun loc => ¬ (get_used_location_ids []).contains loc.id),
        assign_location_id "TAX" (some 7) c2Locations [] = some b.id ∧
        0 < score_location_for_category "TAX" b ∧
        ∀ u ∈ c2Locations.filter
          (fun loc => ¬ (get_used_location_ids []).contains loc.id),
          score_location_for_category "TAX" u ≤
            score_location_for_category "TAX" b) ∧
    ((c2Locations.filter
        (fun loc => ¬ (get_used_location_ids []).contains loc.id) ≠ [] ∧
      (∀ u ∈ c2Locations.filter
        (fun loc => ¬ (get_used_location_ids []).contains loc.id),
        score_location_for_category "TAX" u = 0)) →
      assign_location_id "TAX" (some 7) c2Locations [] =
        ((c2Locations.filter
          (fun loc => ¬ (get_used_location_ids []).contains loc.id)).head?).map
          (fun loc => loc.id)) ∧
    ((c2Locations.filter
        (fun loc => ¬ (get_used_location_ids []).contains loc.id) = [] ∧
      ∃ l ∈ c2Locations, 0 < score_location_for_category "TAX" l) →
      ∃ b ∈ c2Locations,
        assign_location_id "TAX" (some 7) c2Locations [] = some b.id ∧
        0 < score_location_for_category "TAX" b ∧
        ∀ l ∈ c2Locations,
          score_location_for_category "TAX" l ≤
            score_location_for_category "TAX" b) ∧
    ((c2Locations.filter
        (fun loc => ¬ (get_used_location_ids []).contains loc.id) = [] ∧
      (∀ l ∈ c2Locations, score_location_for_category "TAX" l = 0)) →
      assign_location_id "TAX" (some 7) c2Locations [] =
        (c2Locations.head?).map (fun loc => loc.id)) :=
  C2_location_assignment "TAX" (some 7) c2Locations []
    (by decide) (by decide) (by decide)

/-- C5: for every storage state, query vector, owner filter, `top_k` and
`min_score`, the search result is sorted non-increasingly by score, every
returned score is at least `min_score`, and the length never exceeds
`top_k`. -/
theorem C5_search_properties (s : LocalStorage) (query_embedding : List ℚ)
    (owner_id : Option Int) (top_k : Nat) (min_score : ℝ) :
    List.Pairwise (fun a b => b.score ≤ a.score)
      (search s query_embedding owner_id top_k min_score) ∧
    (∀ x ∈ search s query_embedding owner_id top_k min_score,
      min_score ≤ x.score) ∧
    (search s query_embedding owner_id top_k min_score).length ≤ top_k := by
  classical
  by_cases hq : query_embedding = []
  · simp [search, hq]
  · by_cases hd : get_all_embeddings s owner_id = []
    · simp [search, hq, hd]
    · have hsearch : search s query_embedding owner_id top_k min_score =
          (sortDescBy (fun r => r.score)
            ((get_all_embeddings s owner_id).filterMap (fun doc =>
              if doc.embedding = [] then none
              else
                if min_score ≤ cosine_similarity query_embedding doc.embedding then
                  some ⟨doc.id, cosine_similarity query_embedding doc.embedding,
                    doc.metadata⟩
                else none))).take top_k := by
        simp only [search]
        rw [if_neg hq, if_neg hd]
      rw [hsearch]
      refine ⟨?_, ?_, ?_⟩
      · exact List.Pairwise.sublist (List.take_sublist _ _)
          (pairwise_sortDescBy (fun r : SearchResult => r.score) _)
      · intro x hx
        have hx1 := (List.take_sublist top_k _).subset hx
        have hx2 := (sortDescBy_perm (fun r : SearchResult => r.score) _).mem_iff.mp hx1
        obtain ⟨doc, hdoc, hsome⟩ := List.mem_filterMap.mp hx2
        by_cases h1 : doc.embedding = []
        · rw [if_pos h1] at hsome
          exact absurd hsome (by simp)
        · rw [if_neg h1] at hsome
          by_cases h2 : min_score ≤ cosine_similarity query_embedding doc.embedding
          · rw [if_pos h2] at hsome
            cases Option.some.inj hsome
            exact h2
          · rw [if_neg h2] at hsome
            exact absurd hsome (by simp)
      · rw [List.length_take]
        exact min_le_left _ _

/-- Witness for C5 on a concrete (empty) storage state. -/
theorem C5_search_properties_witness :
    (search LocalStorage.empty [1] none 5 0).length ≤ 5 :=
  (C5_search_properties LocalStorage.empty [1] none 5 0).2.2

/-- C8: whenever the OCR capability raises, returns nothing or returns
empty text, the run stops with status "failed", the final state has no
document id, persistence is skipped entirely and neither the main
Document Store nor the error store changes. -/
theorem C8_ocr_failure (caps : IngestionCaps) (image_url : String)
    (owner_id : Int) (stores : Stores) (h : ocrFailed caps.ocr = true) :
    (run caps image_url owner_id none false stores).1.status = "failed" ∧
    (run caps image_url owner_id none false stores).1.document_id = none ∧
    (run caps image_url owner_id none false stores).2 = stores := by
  rcases hc : caps.ocr with o | e
  · rcases o with _ | r
    · refine ⟨?_, ?_, ?_⟩ <;>
        simp [run, step_ocr, hc, to_output_dict, initState]
    · rw [hc] at h
      simp only [ocrFailed, beq_iff_eq] at h
      refine ⟨?_, ?_, ?_⟩ <;>
        simp [run, step_ocr, hc, h, to_output_dict, initState]
  · refine ⟨?_, ?_, ?_⟩ <;>
      simp [run, step_ocr, hc, to_output_dict, initState]

/-- Witness for C8 with a raising OCR capability. -/
theorem C8_ocr_failure_witness :
    (run ocrRaiseCaps "img.jpg" 42 none false emptyStores).1.status = "failed" ∧
    (run ocrRaiseCaps "img.jpg" 42 none false emptyStores).1.document_id = none ∧
    (run ocrRaiseCaps "img.jpg" 42 none false emptyStores).2 = emptyStores :=
  C8_ocr_failure ocrRaiseCaps "img.jpg" 42 emptyStores (by decide)

/- Helper lemmas on the ingestion pipeline steps. -/

theorem step_ocr_ok (r : OCRResult) (hr : r.text ≠ "") (st : PipelineState) :
    step_ocr (.ok (some r)) st =
      (true, { st with
        ocr_result := some r,
        processing_steps := st.processing_steps ++ ["OCR"],
        status := "ocr_completed" }) := by
  simp [step_ocr, hr]

theorem step_cleaning_props (cap : CapResult CleaningInfo) (st : PipelineState)
    (r : OCRResult) (hocr : st.ocr_result = some r) (hr : r.text ≠ "") :
    (step_cleaning cap st).2.ocr_result = some r ∧
    textToUse (step_cleaning cap st).2 ≠ "" := by
  rcases cap with info | e
  · constructor
    · simp [step_cleaning, hocr, hr]
    · simp only [step_cleaning, hocr]
      rw [if_neg hr]
      simp only [textToUse, pyOrString, hocr]
      split
      · exact hr
      · assumption
  · constructor
    · simp [step_cleaning, hocr, hr]
    · simp only [step_cleaning, hocr]
      rw [if_neg hr]
      simp only [textToUse, pyOrString, hocr]
      split
      · exact hr
      · exact hr

theorem step_recommendation_props (cap : CapResult RecommendationOutcome)
    (st : PipelineState) (h : textToUse st ≠ "") :
    (step_recommendation cap st).2.ocr_result = st.ocr_result ∧
    (step_recommendation cap st).2.cleaned_text = st.cleaned_text ∧
    (step_recommendation cap st).2.status =
      (match cap with
       | .ok o => if o.status = "llm_success" then "llm_recommendation_completed"
                  else "recommendation_failed"
       | .raised _ => "recommendation_failed") := by
  rcases cap with o | e
  · by_cases hs : o.status = "llm_success" <;>
      simp [step_recommendation, h, hs]
  · simp [step_recommendation, h]

theorem step_embedding_status (cap : CapResult (List ℚ)) (st : PipelineState) :
    (step_embedding cap st).2.status = st.status := by
  by_cases h : textToUse st = ""
  · simp [step_embedding, h]
  · rcases cap with emb | e
    · by_cases he : emb = [] <;> simp [step_embedding, h, he]
    · simp [step_embedding, h]

/-- Counterexample to C1 as stated: a run in which OCR, Cleaning and the
recommendation all succeed but the Embedding capability returns an empty
vector — an "Embedding failed" run — is persisted to the MAIN Document
Store with status "completed", and the error store stays empty:
`step_embedding` records the failure only in `embedding_status`, never in
`status`, so the run never reaches a failing status at Persist time. -/
theorem C1_counterexample :
    (run embeddingFailCaps "img.jpg" 42 none false emptyStores).2.errors = [] ∧
    ((run embeddingFailCaps "img.jpg" 42 none false emptyStores).2.main.documents.map
      Prod.fst) = [0] ∧
    (run embeddingFailCaps "img.jpg" 42 none false emptyStores).1.status =
      "completed" := by
  decide

/-- C1 amended: for a run that passes OCR (so the Persist step is reached),
only a failed Recommendation step leaves a failing status at Persist time:
such runs are appended to the error store together with their failure
context (status "recommendation_failed", failed step "Recommendation",
the step log) and the main Document Store is untouched.  A run whose
recommendation succeeds is written to the main Document Store and the
error store is untouched — even when the Embedding step failed, because
embedding failure is recorded only in `embedding_status`, never in
`status`.  (OCR-failed runs never reach Persist at all; see C8.) -/
theorem C1_persist_routing (r : OCRResult) (hr : r.text ≠ "")
    (cleaner : CapResult CleaningInfo)
    (recommender : CapResult RecommendationOutcome)
    (embedder : CapResult (List ℚ)) (remote : CapResult Nat)
    (image_url : String) (owner_id : Int) (stores : Stores) :
    ((match recommender with
      | .ok o => o.status ≠ "llm_success"
      | .raised _ => True) →
      (run ⟨.ok (some r), cleaner, recommender, embedder, remote⟩
        image_url owner_id none false stores).2.main = stores.main ∧
      ∃ dd err steps,
        (run ⟨.ok (some r), cleaner, recommender, embedder, remote⟩
          image_url owner_id none false stores).2.errors =
          stores.errors ++
            [⟨stores.errors.length, dd,
              ⟨"recommendation_failed", err, "Recommendation", steps⟩⟩]) ∧
    ((match recommender with
      | .ok o => o.status = "llm_success"
      | .raised _ => False) →
      (run ⟨.ok (some r), cleaner, recommender, embedder, remote⟩
        image_url owner_id none false stores).2.errors = stores.errors ∧
      ∃ rec,
        (run ⟨.ok (some r), cleaner, recommender, embedder, remote⟩
          image_url owner_id none false stores).2.main.documents =
          (stores.main.nextId, rec) :: stores.main.documents) := by
  have hprops := step_cleaning_props cleaner
    { image_url := image_url, owner_id := owner_id, document_id := none,
      ocr_result := some r, cleaned_text := none, cleaning_info := none,
      recommendation_result := none, embedding := none,
      embedding_status := "pending", processing_steps := ["OCR"],
      status := "ocr_completed", error := none } r rfl hr
  have hstat2 : (step_embedding embedder (step_recommendation recommender
      (step_cleaning cleaner
        { image_url := image_url, owner_id := owner_id, document_id := none,
          ocr_result := some r, cleaned_text := none, cleaning_info := none,
          recommendation_result := none, embedding := none,
          embedding_status := "pending", processing_steps := ["OCR"],
          status := "ocr_completed", error := none }).2).2).2.status =
      (match recommender with
       | .ok o => if o.status = "llm_success" then "llm_recommendation_completed"
                  else "recommendation_failed"
       | .raised _ => "recommendation_failed") := by
    rw [step_embedding_status]
    exact (step_recommendation_props recommender
      (step_cleaning cleaner
        { image_url := image_url, owner_id := owner_id, document_id := none,
          ocr_result := some r, cleaned_text := none, cleaning_info := none,
          recommendation_result := none, embedding := none,
          embedding_status := "pending", processing_steps := ["OCR"],
          status := "ocr_completed", error := none }).2 hprops.2).2.2
  have hrun : run ⟨CapResult.ok (some r), cleaner, recommender, embedder, remote⟩
      image_url owner_id none false stores =
      (to_output_dict (step_persist remote
          (step_embedding embedder (step_recommendation recommender
            (step_cleaning cleaner
              { image_url := image_url, owner_id := owner_id, document_id := none,
                ocr_result := some r, cleaned_text := none, cleaning_info := none,
                recommendation_result := none, embedding := none,
                embedding_status := "pending", processing_steps := ["OCR"],
                status := "ocr_completed", error := none }).2).2).2
          (decide ((step_embedding embedder (step_recommendation recommender
            (step_cleaning cleaner
              { image_url := image_url, owner_id := owner_id, document_id := none,
                ocr_result := some r, cleaned_text := none, cleaning_info := none,
                recommendation_result := none, embedding := none,
                embedding_status := "pending", processing_steps := ["OCR"],
                status := "ocr_completed", error := none }).2).2).2.status ∈
            failedStatuses)) stores).2.1,
        (step_persist remote
          (step_embedding embedder (step_recommendation recommender
            (step_cleaning cleaner
              { image_url := image_url, owner_id := owner_id, document_id := none,
                ocr_result := some r, cleaned_text := none, cleaning_info := none,
                recommendation_result := none, embedding := none,
                embedding_status := "pending", processing_steps := ["OCR"],
                status := "ocr_completed", error := none }).2).2).2
          (decide ((step_embedding embedder (step_recommendation recommender
            (step_cleaning cleaner
              { image_url := image_url, owner_id := owner_id, document_id := none,
                ocr_result := some r, cleaned_text := none, cleaning_info := none,
                recommendation_result := none, embedding := none,
                embedding_status := "pending", processing_steps := ["OCR"],
                status := "ocr_completed", error := none }).2).2).2.status ∈
            failedStatuses)) stores).2.2) := by
    simp [run, step_ocr_ok r hr, initState]
  generalize hgen : (step_embedding embedder (step_recommendation recommender
      (step_cleaning cleaner
        { image_url := image_url, owner_id := owner_id, document_id := none,
          ocr_result := some r, cleaned_text := none, cleaning_info := none,
          recommendation_result := none, embedding := none,
          embedding_status := "pending", processing_steps := ["OCR"],
          status := "ocr_completed", error := none }).2).2).2 = st4 at hrun hstat2
  rw [hrun]
  rcases recommender with o | e
  · by_cases hs : o.status = "llm_success"
    · have hst : st4.status = "llm_recommendation_completed" := by
        rw [hstat2]
        simp [hs]
      constructor
      · intro hcontra
        exact absurd hs hcontra
      · intro _
        rw [hst,
          (by decide : decide ("llm_recommendation_completed" ∈ failedStatuses) = false)]
        constructor
        · rcases remote with n | e2 <;> simp [step_persist]
        · rcases remote with n | e2
          · simp only [step_persist]
            obtain ⟨-, ⟨ip, hdocs⟩, -⟩ := save_document_spec stores.main
              (outputToDocumentData (to_output_dict st4) (some st4.image_url))
            exact ⟨_, hdocs⟩
          · simp only [step_persist]
            obtain ⟨-, ⟨ip, hdocs⟩, -⟩ := save_document_spec stores.main
              (outputToDocumentData (to_output_dict st4) (some st4.image_url))
            exact ⟨_, hdocs⟩
    · have hst : st4.status = "recommendation_failed" := by
        rw [hstat2]
        simp [hs]
      have hgf : get_failed_step st4 = "Recommendation" := by
        simp [get_failed_step, hst]
      constructor
      · intro _
        rw [hst,
          (by decide : decide ("recommendation_failed" ∈ failedStatuses) = true)]
        constructor
        · simp [step_persist]
        · refine ⟨outputToDocumentData (to_output_dict st4) (some st4.image_url),
            st4.error, st4.processing_steps, ?_⟩
          simp [step_persist, save_error_document, hst, hgf]
      · intro hcontra
        exact absurd hcontra hs
  · have hst : st4.status = "recommendation_failed" := by
      rw [hstat2]
    have hgf : get_failed_step st4 = "Recommendation" := by
      simp [get_failed_step, hst]
    constructor
    · intro _
      rw [hst,
        (by decide : decide ("recommendation_failed" ∈ failedStatuses) = true)]
      constructor
      · simp [step_persist]
      · refine ⟨outputToDocumentData (to_output_dict st4) (some st4.image_url),
          st4.error, st4.processing_steps, ?_⟩
        simp [step_persist, save_error_document, hst, hgf]
    · intro hcontra
      exact hcontra.elim

/-- Witness for C1's amended routing at a concrete failing recommendation. -/
theorem C1_persist_routing_witness :
    ((match (CapResult.ok ⟨"llm_error", none, some "LLM down"⟩ :
        CapResult RecommendationOutcome) with
      | .ok o => o.status ≠ "llm_success"
      | .raised _ => True) →
      (run ⟨.ok (some ⟨"hello text", none⟩), .ok ⟨some "hello text"⟩,
        .ok ⟨"llm_error", none, some "LLM down"⟩, .ok [1], .ok 1⟩
        "img.jpg" 42 none false emptyStores).2.main = emptyStores.main ∧
      ∃ dd err steps,
        (run ⟨.ok (some ⟨"hello text", none⟩), .ok ⟨some "hello text"⟩,
          .ok ⟨"llm_error", none, some "LLM down"⟩, .ok [1], .ok 1⟩
          "img.jpg" 42 none false emptyStores).2.errors =
          emptyStores.errors ++
            [⟨emptyStores.errors.length, dd,
              ⟨"recommendation_failed", err, "Recommendation", steps⟩⟩]) ∧
    ((match (CapResult.ok ⟨"llm_error", none, some "LLM down"⟩ :
        CapResult RecommendationOutcome) with
      | .ok o => o.status = "llm_success"
      | .raised _ => False) →
      (run ⟨.ok (some ⟨"hello text", none⟩), .ok ⟨some "hello text"⟩,
        .ok ⟨"llm_error", none, some "LLM down"⟩, .ok [1], .ok 1⟩
        "img.jpg" 42 none false emptyStores).2.errors = emptyStores.errors ∧
      ∃ rec,
        (run ⟨.ok (some ⟨"hello text", none⟩), .ok ⟨some "hello text"⟩,
          .ok ⟨"llm_error", none, some "LLM down"⟩, .ok [1], .ok 1⟩
          "img.jpg" 42 none false emptyStores).2.main.documents =
          (emptyStores.main.nextId, rec) :: emptyStores.main.documents) :=
  C1_persist_routing ⟨"hello text", none⟩ (by decide)
    (.ok ⟨some "hello text"⟩) (.ok ⟨"llm_error", none, some "LLM down"⟩)
    (.ok [1]) (.ok 1) "img.jpg" 42 emptyStores
